import Mathlib

/-!
Verification of the decode-and-normalize pipeline of the rimg image viewer
(src/image_loader.rs) against its natural-language specification.

Shallow embedding conventions:
* Bytes are `Nat` values (inputs of interest satisfy `b < 256`); byte buffers
  are `List Nat`.
* Rust `usize` arithmetic is `Nat`; where the source uses `checked_mul` on a
  64-bit `usize`, the embedding checks the product against `2 ^ 64`.
* Fallible Rust functions returning `Result<_, String>` are embedded with the
  sum type `Res`; functions whose Rust body can panic on an out-of-bounds
  index are embedded in the `PRes` type, where `PRes.crash` marks a panic and
  `PRes.ok` a normal return.  Every raw slice index of the source is embedded
  through the bounds-checked primitive `idx`, so a proof that a function never
  returns `crash` is exactly a proof that the source never indexes out of
  bounds and never panics.
* Display-only string formatting of EXIF values (which goes through `f64` in
  the source) is represented structurally by `ExifVal`; the byte reads, bounds
  checks and control flow around it are embedded faithfully.
-/

/-- Result of running a piece of Rust code that may panic: either a normal
value or a crash (panic / out-of-bounds index). -/
inductive PRes (α : Type) where
  | ok (a : α) : PRes α
  | crash : PRes α
deriving DecidableEq, Repr

/-- True when the computation returned normally (did not panic). -/
def PRes.isOk {α : Type} : PRes α → Bool
  | .ok _ => true
  | .crash => false

/-- Embedding of Rust `Result<α, ε>`. -/
inductive Res (ε α : Type) where
  | ok (a : α) : Res ε α
  | err (e : ε) : Res ε α
deriving DecidableEq, Repr

/-- Rust slice indexing `d[i]`: panics when out of bounds. -/
def idx (d : List Nat) (i : Nat) : PRes Nat :=
  if i < d.length then .ok (d.getD i 0) else .crash

/-- Maximum pixel count, 256 megapixels (src/image_loader.rs line 13). -/
def MAX_PIXEL_COUNT : Nat := 256 * 1024 * 1024

/-- `2 ^ 64`, the overflow bound of Rust `usize` on the 64-bit targets the
source assumes (its FFI layer hardcodes x86_64 Linux layouts). -/
def USIZE_BOUND : Nat := 2 ^ 64

/-- Canonical RGBA pixel buffer (struct `RgbaImage`, lines 23-28): `data` holds
`width * height * 4` bytes in row-major RGBA order. -/
structure RgbaImage where
  data : List Nat
  width : Nat
  height : Nat
deriving DecidableEq, Repr

/-- The PixelBuffer invariant stated by the specification. -/
def well_formed (img : RgbaImage) : Prop :=
  img.data.length = img.width * img.height * 4

/-- `RgbaImage::from_raw` (lines 43-56): two `usize` `checked_mul` steps
compute `width * height * 4`; construction succeeds only when `data` has
exactly that many bytes. -/
def from_raw (width height : Nat) (data : List Nat) : Option RgbaImage :=
  if width * height < USIZE_BOUND then
    if width * height * 4 < USIZE_BOUND then
      if data.length = width * height * 4 then
        some ⟨data, width, height⟩
      else
        none
    else
      none
  else
    none

/-- `validate_dimensions` (lines 99-114): rejects a pixel count above
`MAX_PIXEL_COUNT` and zero dimensions, in that order. -/
def validate_dimensions (width height : Nat) (format : String) : Res String Unit :=
  if MAX_PIXEL_COUNT < width * height then
    .err (format ++ " image too large: " ++ toString width ++ "x" ++ toString height
      ++ " (" ++ toString (width * height) ++ " pixels, max "
      ++ toString MAX_PIXEL_COUNT ++ ")")
  else if width = 0 ∨ height = 0 then
    .err (format ++ " image has zero dimension: " ++ toString width ++ "x"
      ++ toString height)
  else
    .ok ()

/-- `LoadedImage` (lines 69-72): static image or animated frame list; a frame
duration is kept as a number of milliseconds. -/
inductive LoadedImage where
  | static (img : RgbaImage) : LoadedImage
  | animated (frames : List (RgbaImage × Nat)) : LoadedImage
deriving DecidableEq, Repr

/-- `LoadedImage::first_frame` (lines 75-80): `&frames[0].0` panics when the
frame list is empty, hence the `PRes` result. -/
def first_frame : LoadedImage → PRes RgbaImage
  | .static img => .ok img
  | .animated frames =>
    match frames with
    | [] => .crash
    | f :: _ => .ok f.1

/-- C3: `RgbaImage::from_raw` succeeds exactly when the byte count equals
`width * height * 4` computed without `usize` overflow, and on success it
stores the bytes unchanged (no truncation, no padding) together with the given
dimensions, so the resulting buffer satisfies the length invariant. -/
theorem from_raw_exact_length (width height : Nat) (data : List Nat) :
    from_raw width height data =
      if width * height * 4 < USIZE_BOUND ∧ data.length = width * height * 4 then
        some ⟨data, width, height⟩
      else
        none := by
  have hle : width * height ≤ width * height * 4 :=
    Nat.le_mul_of_pos_right _ (by norm_num)
  unfold from_raw
  split_ifs with h1 h2 h3 h4 h5 h6 h7 <;> first
    | rfl
    | (exfalso; omega)

/-- C4 counterexample: constructing a PixelBuffer from raw bytes with zero
width and height succeeds, so zero dimensions are not rejected at
construction time. -/
theorem from_raw_accepts_zero_dims :
    from_raw 0 0 [] = some ⟨[], 0, 0⟩ := by
  decide

/-- C4 (amended): zero width/height and pixel counts above the 256-megapixel
ceiling are rejected by `validate_dimensions` — which the decoders call before
building their pixel buffers — and by nothing else: it succeeds exactly on
positive dimensions whose product is within the ceiling. -/
theorem validate_dimensions_rejects_iff (width height : Nat) (format : String) :
    validate_dimensions width height format = .ok () ↔
      (0 < width ∧ 0 < height ∧ width * height ≤ MAX_PIXEL_COUNT) := by
  unfold validate_dimensions
  split_ifs with h1 h2 <;>
    simp_all <;> omega

/-!
## Orientation transforms (src/image_loader.rs lines 2580-2647, 3378-3389)

Each Rust transform allocates a zero-filled output buffer and copies every
source pixel `img.data[src..src+4]` to a destination offset; the destination
offsets cover every output pixel exactly once, so the output buffer equals the
list of output pixels in row-major order, each fetched from the inverse of the
source loop's destination map.  The embeddings below generate exactly that
list; `pix d p` is the 4-byte pixel at index `p`.
-/

/-- The 4 bytes of pixel `p` of a row-major RGBA byte buffer. -/
def pix (d : List Nat) (p : Nat) : List Nat :=
  [d.getD (4 * p) 0, d.getD (4 * p + 1) 0, d.getD (4 * p + 2) 0, d.getD (4 * p + 3) 0]

/-- `flip_h` (lines 2636-2647): `out[y][w-1-x] := img[y][x]`; output pixel
`(X, y)` is source pixel `(w-1-X, y)`. -/
def flip_h (img : RgbaImage) : RgbaImage :=
  ⟨(((List.range (img.width * img.height)).map fun p =>
      pix img.data ((p / img.width) * img.width + (img.width - 1 - p % img.width))).flatten),
    img.width, img.height⟩

/-- `flip_v` (lines 3378-3389): row `h-1-y` of the output is row `y` of the
source. -/
def flip_v (img : RgbaImage) : RgbaImage :=
  ⟨(((List.range (img.width * img.height)).map fun p =>
      pix img.data ((img.height - 1 - p / img.width) * img.width + p % img.width)).flatten),
    img.width, img.height⟩

/-- `rotate_90` (lines 2593-2606): output is `h × w`; `out[x][h-1-y] :=
img[y][x]`, so output pixel `(X, Y)` is source pixel `(Y, h-1-X)`. -/
def rotate_90 (img : RgbaImage) : RgbaImage :=
  ⟨(((List.range (img.height * img.width)).map fun p =>
      pix img.data ((img.height - 1 - p % img.height) * img.width + p / img.height)).flatten),
    img.height, img.width⟩

/-- `rotate_270` (lines 2621-2634): output is `h × w`; `out[w-1-x][y] :=
img[y][x]`, so output pixel `(X, Y)` is source pixel `(X, w-1-Y)`. -/
def rotate_270 (img : RgbaImage) : RgbaImage :=
  ⟨(((List.range (img.height * img.width)).map fun p =>
      pix img.data ((p % img.height) * img.width + (img.width - 1 - p / img.height))).flatten),
    img.height, img.width⟩

/-- `rotate_180` (lines 2608-2619): `out[h-1-y][w-1-x] := img[y][x]`. -/
def rotate_180 (img : RgbaImage) : RgbaImage :=
  ⟨(((List.range (img.width * img.height)).map fun p =>
      pix img.data ((img.height - 1 - p / img.width) * img.width
        + (img.width - 1 - p % img.width))).flatten),
    img.width, img.height⟩

/-- `apply_orientation` (lines 2580-2591): dispatch on the EXIF orientation
value; 1 and every value outside 2-8 fall through to the identity arm. -/
def apply_orientation (img : RgbaImage) (orientation : Nat) : RgbaImage :=
  if orientation = 2 then flip_h img
  else if orientation = 3 then rotate_180 img
  else if orientation = 4 then flip_v img
  else if orientation = 5 then flip_h (rotate_90 img)
  else if orientation = 6 then rotate_90 img
  else if orientation = 7 then flip_h (rotate_270 img)
  else if orientation = 8 then rotate_270 img
  else img

theorem pix_length (d : List Nat) (p : Nat) : (pix d p).length = 4 := rfl

theorem getD_shift4 (a b c e : Nat) (t : List Nat) (k : Nat) :
    (a :: b :: c :: e :: t).getD (k + 4) 0 = t.getD k 0 := by
  have h : k + 4 = k + 1 + 1 + 1 + 1 := by omega
  rw [h, List.getD_cons_succ, List.getD_cons_succ, List.getD_cons_succ, List.getD_cons_succ]

theorem pix_cons4 (a b c e : Nat) (t : List Nat) (p : Nat) :
    pix (a :: b :: c :: e :: t) (p + 1) = pix t p := by
  unfold pix
  have h0 : 4 * (p + 1) = 4 * p + 4 := by ring
  have h1 : 4 * (p + 1) + 1 = (4 * p + 1) + 4 := by ring
  have h2 : 4 * (p + 1) + 2 = (4 * p + 2) + 4 := by ring
  have h3 : 4 * (p + 1) + 3 = (4 * p + 3) + 4 := by ring
  rw [h1, h2, h3, h0, getD_shift4, getD_shift4, getD_shift4, getD_shift4]

theorem pix_cons0 (a b c e : Nat) (t : List Nat) :
    pix (a :: b :: c :: e :: t) 0 = [a, b, c, e] := rfl

theorem list_len4_eq (l : List Nat) (h : l.length = 4) :
    l = [l.getD 0 0, l.getD 1 0, l.getD 2 0, l.getD 3 0] := by
  rcases l with _ | ⟨a, _ | ⟨b, _ | ⟨c, _ | ⟨e, _ | ⟨f, t⟩⟩⟩⟩⟩ <;> simp_all

/-- Splitting a buffer of `4 * n` bytes into its `n` pixels and flattening
gives the buffer back. -/
theorem flatten_pix_reconstruct :
    ∀ (n : Nat) (d : List Nat), d.length = 4 * n →
      (((List.range n).map fun p => pix d p).flatten) = d := by
  intro n
  induction n with
  | zero =>
    intro d h
    simp only [Nat.mul_zero] at h
    simp [List.length_eq_zero.mp h]
  | succ n ih =>
    intro d h
    rcases d with _ | ⟨a, d⟩
    · exfalso; simp at h; try omega
    rcases d with _ | ⟨b, d⟩
    · exfalso; simp at h; try omega
    rcases d with _ | ⟨c, d⟩
    · exfalso; simp at h; try omega
    rcases d with _ | ⟨e, t⟩
    · exfalso; simp at h; try omega
    have ht : t.length = 4 * n := by simp at h; omega
    rw [List.range_succ_eq_map, List.map_cons, List.flatten_cons, pix_cons0, List.map_map]
    have hfun : ((fun p => pix (a :: b :: c :: e :: t) p) ∘ Nat.succ) = fun p => pix t p :=
      funext fun p => pix_cons4 a b c e t p
    rw [hfun, ih t ht]
    rfl

theorem getD_flatten_pix :
    ∀ (n : Nat) (f : Nat → List Nat), (∀ p, (f p).length = 4) →
      ∀ (q i : Nat), q < n → i < 4 →
        (((List.range n).map f).flatten).getD (4 * q + i) 0 = (f q).getD i 0 := by
  intro n
  induction n with
  | zero => intro f hf q i hq hi; omega
  | succ n ih =>
    intro f hf q i hq hi
    rw [List.range_succ_eq_map, List.map_cons, List.flatten_cons, List.map_map]
    cases q with
    | zero =>
      have h0 : 4 * 0 + i = i := by omega
      rw [h0]
      exact List.getD_append _ _ 0 i (by rw [hf 0]; omega)
    | succ q =>
      have h1 : 4 * (q + 1) + i = (4 * q + i) + 4 := by ring
      rw [h1]
      have h2 := List.getD_append_right (f 0) ((List.range n).map (f ∘ Nat.succ)).flatten
        0 (4 * q + i + 4) (by rw [hf 0]; omega)
      rw [hf 0] at h2
      have h3 : 4 * q + i + 4 - 4 = 4 * q + i := by omega
      rw [h3] at h2
      rw [h2]
      exact ih (f ∘ Nat.succ) (fun p => hf (p + 1)) q i (by omega) hi

/-- Reading pixel `q` back out of a buffer generated pixel-by-pixel returns
the generating function's value at `q`. -/
theorem pix_flatten (n : Nat) (f : Nat → List Nat) (hf : ∀ p, (f p).length = 4)
    (q : Nat) (hq : q < n) :
    pix (((List.range n).map f).flatten) q = f q := by
  have h0 : (((List.range n).map f).flatten).getD (4 * q) 0 = (f q).getD 0 0 := by
    have := getD_flatten_pix n f hf q 0 hq (by omega)
    simpa using this
  have h1 := getD_flatten_pix n f hf q 1 hq (by omega)
  have h2 := getD_flatten_pix n f hf q 2 hq (by omega)
  have h3 := getD_flatten_pix n f hf q 3 hq (by omega)
  rw [pix, h0, h1, h2, h3]
  exact (list_len4_eq (f q) (hf q)).symm

theorem helper_div (a r w : Nat) (hr : r < w) : (a * w + r) / w = a := by
  have h1 : a * w + r = r + a * w := by ring
  rw [h1, Nat.add_mul_div_right r a (by omega), Nat.div_eq_of_lt hr, Nat.zero_add]

theorem helper_mod (a r w : Nat) (hr : r < w) : (a * w + r) % w = r := by
  have h1 : a * w + r = r + a * w := by ring
  rw [h1, Nat.add_mul_mod_self_right r a w, Nat.mod_eq_of_lt hr]

theorem helper_lt (a r w h : Nat) (ha : a < h) (hr : r < w) : a * w + r < w * h :=
  calc a * w + r < a * w + w := by omega
    _ = (a + 1) * w := by ring
    _ ≤ h * w := Nat.mul_le_mul_right w ha
    _ = w * h := Nat.mul_comm h w

theorem div_mul_add_mod (p w : Nat) : p / w * w + p % w = p := by
  have := Nat.div_add_mod p w
  calc p / w * w + p % w = w * (p / w) + p % w := by ring
    _ = p := this

theorem flip_h_involutive (img : RgbaImage) (hwf : well_formed img) :
    flip_h (flip_h img) = img := by
  rcases img with ⟨d, w, h⟩
  unfold well_formed at hwf
  simp only at hwf
  unfold flip_h
  simp only
  congr 1
  have hcongr :
      ((List.range (w * h)).map fun p =>
          pix (((List.range (w * h)).map fun p =>
              pix d (p / w * w + (w - 1 - p % w))).flatten)
            (p / w * w + (w - 1 - p % w))) =
        ((List.range (w * h)).map fun p => pix d p) := by
    apply List.map_congr_left
    intro p hp
    have hplt : p < w * h := List.mem_range.mp hp
    have hw : 0 < w := by
      rcases Nat.eq_zero_or_pos w with rfl | hw
      · simp at hplt
      · exact hw
    have hmod : p % w < w := Nat.mod_lt p hw
    have hdiv : p / w < h := (Nat.div_lt_iff_lt_mul hw).mpr (Nat.mul_comm w h ▸ hplt)
    have hσlt : p / w * w + (w - 1 - p % w) < w * h :=
      helper_lt (p / w) (w - 1 - p % w) w h hdiv (by omega)
    rw [pix_flatten (w * h) (fun p => pix d (p / w * w + (w - 1 - p % w)))
      (fun _ => rfl) (p / w * w + (w - 1 - p % w)) hσlt]
    have efinal :
        (p / w * w + (w - 1 - p % w)) / w * w
            + (w - 1 - (p / w * w + (w - 1 - p % w)) % w) = p := by
      rw [helper_div (p / w) (w - 1 - p % w) w (by omega),
        helper_mod (p / w) (w - 1 - p % w) w (by omega)]
      have e3 : w - 1 - (w - 1 - p % w) = p % w := by omega
      rw [e3, div_mul_add_mod]
    exact congrArg (pix d) efinal
  rw [hcongr]
  exact flatten_pix_reconstruct (w * h) d (by omega)

theorem rotate_180_involutive (img : RgbaImage) (hwf : well_formed img) :
    rotate_180 (rotate_180 img) = img := by
  rcases img with ⟨d, w, h⟩
  unfold well_formed at hwf
  simp only at hwf
  unfold rotate_180
  simp only
  congr 1
  have hcongr :
      ((List.range (w * h)).map fun p =>
          pix (((List.range (w * h)).map fun p =>
              pix d ((h - 1 - p / w) * w + (w - 1 - p % w))).flatten)
            ((h - 1 - p / w) * w + (w - 1 - p % w))) =
        ((List.range (w * h)).map fun p => pix d p) := by
    apply List.map_congr_left
    intro p hp
    have hplt : p < w * h := List.mem_range.mp hp
    have hw : 0 < w := by
      rcases Nat.eq_zero_or_pos w with rfl | hw
      · simp at hplt
      · exact hw
    have hmod : p % w < w := Nat.mod_lt p hw
    have hdiv : p / w < h := (Nat.div_lt_iff_lt_mul hw).mpr (Nat.mul_comm w h ▸ hplt)
    have hσlt : (h - 1 - p / w) * w + (w - 1 - p % w) < w * h :=
      helper_lt (h - 1 - p / w) (w - 1 - p % w) w h
        (by generalize p / w = q at hdiv ⊢; omega) (by omega)
    rw [pix_flatten (w * h) (fun p => pix d ((h - 1 - p / w) * w + (w - 1 - p % w)))
      (fun _ => rfl) ((h - 1 - p / w) * w + (w - 1 - p % w)) hσlt]
    have efinal :
        (h - 1 - ((h - 1 - p / w) * w + (w - 1 - p % w)) / w) * w
            + (w - 1 - ((h - 1 - p / w) * w + (w - 1 - p % w)) % w) = p := by
      rw [helper_div (h - 1 - p / w) (w - 1 - p % w) w (by omega),
        helper_mod (h - 1 - p / w) (w - 1 - p % w) w (by omega)]
      have e2 : h - 1 - (h - 1 - p / w) = p / w := by
        generalize p / w = q at hdiv ⊢; omega
      have e3 : w - 1 - (w - 1 - p % w) = p % w := by omega
      rw [e2, e3, div_mul_add_mod]
    exact congrArg (pix d) efinal
  rw [hcongr]
  exact flatten_pix_reconstruct (w * h) d (by omega)

theorem rotate_270_rotate_90 (img : RgbaImage) (hwf : well_formed img) :
    rotate_270 (rotate_90 img) = img := by
  rcases img with ⟨d, w, h⟩
  unfold well_formed at hwf
  simp only at hwf
  unfold rotate_90 rotate_270
  simp only
  congr 1
  have hcongr :
      ((List.range (w * h)).map fun p =>
          pix (((List.range (h * w)).map fun p =>
              pix d ((h - 1 - p % h) * w + p / h)).flatten)
            (p % w * h + (h - 1 - p / w))) =
        ((List.range (w * h)).map fun p => pix d p) := by
    apply List.map_congr_left
    intro p hp
    have hplt : p < w * h := List.mem_range.mp hp
    have hw : 0 < w := by
      rcases Nat.eq_zero_or_pos w with rfl | hw
      · simp at hplt
      · exact hw
    have hh : 0 < h := by
      rcases Nat.eq_zero_or_pos h with rfl | hh
      · simp at hplt
      · exact hh
    have hmod : p % w < w := Nat.mod_lt p hw
    have hdiv : p / w < h := (Nat.div_lt_iff_lt_mul hw).mpr (Nat.mul_comm w h ▸ hplt)
    have hσlt : p % w * h + (h - 1 - p / w) < h * w :=
      helper_lt (p % w) (h - 1 - p / w) h w hmod
        (by generalize p / w = q at hdiv ⊢; omega)
    rw [pix_flatten (h * w) (fun p => pix d ((h - 1 - p % h) * w + p / h))
      (fun _ => rfl) (p % w * h + (h - 1 - p / w)) hσlt]
    have efinal :
        (h - 1 - (p % w * h + (h - 1 - p / w)) % h) * w
            + (p % w * h + (h - 1 - p / w)) / h = p := by
      rw [helper_div (p % w) (h - 1 - p / w) h
          (by generalize p / w = q at hdiv ⊢; omega),
        helper_mod (p % w) (h - 1 - p / w) h
          (by generalize p / w = q at hdiv ⊢; omega)]
      have e2 : h - 1 - (h - 1 - p / w) = p / w := by
        generalize p / w = q at hdiv ⊢; omega
      rw [e2, div_mul_add_mod]
    exact congrArg (pix d) efinal
  rw [hcongr]
  exact flatten_pix_reconstruct (w * h) d (by omega)

/-- C6: orientation 1 and every out-of-range orientation value are the
identity transform; applying orientation 2 (horizontal flip) twice restores
the buffer; applying orientation 3 (180-degree rotation) twice restores the
buffer; and rotating 90 degrees then 270 degrees restores the original
dimensions and pixel content. -/
theorem orientation_transform_algebra (img : RgbaImage) (v : Nat)
    (hwf : well_formed img) (hv : v = 1 ∨ v = 0 ∨ 8 < v) :
    apply_orientation img v = img ∧
    apply_orientation (apply_orientation img 2) 2 = img ∧
    apply_orientation (apply_orientation img 3) 3 = img ∧
    rotate_270 (rotate_90 img) = img := by
  refine ⟨?_, ?_, ?_, rotate_270_rotate_90 img hwf⟩
  · unfold apply_orientation
    rcases hv with h | h | h <;>
      rw [if_neg (by omega), if_neg (by omega), if_neg (by omega), if_neg (by omega),
        if_neg (by omega), if_neg (by omega), if_neg (by omega)]
  · have h2 : ∀ i : RgbaImage, apply_orientation i 2 = flip_h i := by
      intro i; simp [apply_orientation]
    rw [h2, h2]
    exact flip_h_involutive img hwf
  · have h3 : ∀ i : RgbaImage, apply_orientation i 3 = rotate_180 i := by
      intro i; simp [apply_orientation]
    rw [h3, h3]
    exact rotate_180_involutive img hwf

/-- Witness for C6 at a concrete well-formed 1x1 image and the out-of-range
orientation value 9. -/
theorem orientation_transform_algebra_witness :
    well_formed ⟨[10, 20, 30, 40], 1, 1⟩ ∧
    ((9 : Nat) = 1 ∨ (9 : Nat) = 0 ∨ 8 < (9 : Nat)) ∧
    (apply_orientation ⟨[10, 20, 30, 40], 1, 1⟩ 9 = ⟨[10, 20, 30, 40], 1, 1⟩ ∧
      apply_orientation (apply_orientation ⟨[10, 20, 30, 40], 1, 1⟩ 2) 2 =
        ⟨[10, 20, 30, 40], 1, 1⟩ ∧
      apply_orientation (apply_orientation ⟨[10, 20, 30, 40], 1, 1⟩ 3) 3 =
        ⟨[10, 20, 30, 40], 1, 1⟩ ∧
      rotate_270 (rotate_90 ⟨[10, 20, 30, 40], 1, 1⟩) = ⟨[10, 20, 30, 40], 1, 1⟩) :=
  ⟨by rfl, by omega,
    orientation_transform_algebra ⟨[10, 20, 30, 40], 1, 1⟩ 9 (by rfl) (by omega)⟩

/-!
## TIFF/EXIF tag walker (src/image_loader.rs lines 2477-2574, 2800-3376)

The five parsing functions each define closures `read_u16`/`read_u32` with an
explicit bounds check followed by direct indexing; the closures are textually
identical, so they are embedded once.  All other raw indexing in the walker
also goes through `idx`, so `PRes.crash` marks exactly the panics the claims
are about.  EXIF values are represented structurally (`ExifVal`) instead of
as display strings, because the source's final formatting step goes through
`f64`; the reads, bounds checks and the source's push-if-nonempty test are
embedded faithfully.
-/

/-- The `read_u16` closure (e.g. lines 2525-2534): bounds check, then two
indexings combined according to the byte-order flag. -/
def read_u16 (d : List Nat) (le : Bool) (off : Nat) : PRes (Option Nat) :=
  if off + 2 > d.length then .ok none
  else
    match idx d off, idx d (off + 1) with
    | .ok a, .ok b => .ok (some (if le then a + 256 * b else 256 * a + b))
    | _, _ => .crash

/-- The `read_u32` closure (e.g. lines 2536-2545). -/
def read_u32 (d : List Nat) (le : Bool) (off : Nat) : PRes (Option Nat) :=
  if off + 4 > d.length then .ok none
  else
    match idx d off, idx d (off + 1), idx d (off + 2), idx d (off + 3) with
    | .ok a, .ok b, .ok c, .ok e =>
      .ok (some (if le then a + 256 * b + 65536 * c + 16777216 * e
                 else 16777216 * a + 65536 * b + 256 * c + e))
    | _, _, _, _ => .crash

/-- Reinterpret a `u32` bit pattern as an `i32` (two's complement). -/
def as_i32 (u : Nat) : Int :=
  if u < 2 ^ 31 then (u : Int) else (u : Int) - 2 ^ 32

/-- The `read_i32` closure of `read_tag_value` (lines 3025-3034). -/
def read_i32 (d : List Nat) (le : Bool) (off : Nat) : PRes (Option Int) :=
  match read_u32 d le off with
  | .crash => .crash
  | .ok none => .ok none
  | .ok (some u) => .ok (some (as_i32 u))

/-- Entry loop of `parse_tiff_orientation` (lines 2561-2572): scan up to
`rem` more 12-byte entries for tag 0x0112, whose SHORT value sits in the
first two bytes of the entry's value field. -/
def pto_loop (d : List Nat) (le : Bool) (entries_start : Nat) :
    Nat → Nat → PRes (Option Nat)
  | _, 0 => .ok none
  | i, rem + 1 =>
    if entries_start + i * 12 + 12 > d.length then .ok none
    else
      match read_u16 d le (entries_start + i * 12) with
      | .crash => .crash
      | .ok none => .ok none
      | .ok (some tag) =>
        if tag = 0x0112 then
          match read_u16 d le (entries_start + i * 12 + 8) with
          | .crash => .crash
          | .ok none => .ok none
          | .ok (some v) => .ok (some v)
        else pto_loop d le entries_start (i + 1) rem

/-- Body of `parse_tiff_orientation` after the byte-order mark has been
read (lines 2547-2573). -/
def pto_after_bom (d : List Nat) (le : Bool) : PRes (Option Nat) :=
  match read_u16 d le 2 with
  | .crash => .crash
  | .ok none => .ok none
  | .ok (some magic) =>
    if magic ≠ 42 then .ok none
    else
      match read_u32 d le 4 with
      | .crash => .crash
      | .ok none => .ok none
      | .ok (some ifd_offset) =>
        if ifd_offset + 2 > d.length then .ok none
        else
          match read_u16 d le ifd_offset with
          | .crash => .crash
          | .ok none => .ok none
          | .ok (some entry_count) => pto_loop d le (ifd_offset + 2) 0 entry_count

/-- `parse_tiff_orientation` (lines 2512-2574): length guard, slice from
`tiff_offset`, byte-order mark dispatch ("II" little endian, "MM" big
endian), then the shared IFD0 walk. -/
def parse_tiff_orientation (data : List Nat) (tiff_offset : Nat) : PRes (Option Nat) :=
  if tiff_offset + 8 > data.length then .ok none
  else
    match idx (data.drop tiff_offset) 0, idx (data.drop tiff_offset) 1 with
    | .ok b0, .ok b1 =>
      if b0 = 73 ∧ b1 = 73 then pto_after_bom (data.drop tiff_offset) true
      else if b0 = 77 ∧ b1 = 77 then pto_after_bom (data.drop tiff_offset) false
      else .ok none
    | _, _ => .crash

/-- Structural representation of a parsed EXIF value; the source formats
these into display strings (`format_tag_short`, `format_rational`,
`format_srational`, lines 3096-3227), which never produce an empty string
except for an empty ASCII value. -/
inductive ExifVal where
  | ascii (s : List Nat) : ExifVal
  | short (tag val : Nat) : ExifVal
  | long (val : Nat) : ExifVal
  | rational (tag num den : Nat) : ExifVal
  | srational (tag : Nat) (num den : Int) : ExifVal
  | gps (latRef : Nat) (lat : (Nat × Nat) × (Nat × Nat) × (Nat × Nat))
      (lonRef : Nat) (lon : (Nat × Nat) × (Nat × Nat) × (Nat × Nat)) : ExifVal
  | altitude (num den : Nat) : ExifVal
deriving DecidableEq, Repr

/-- The `v.is_empty()` test of `parse_ifd_tags` (line 2988): of all rendered
values only an ASCII string can be empty. -/
def exif_val_is_empty : ExifVal → Bool
  | .ascii s => s.isEmpty
  | _ => false

/-- `TYPE_SIZES` (line 2905). -/
def type_sizes : List Nat := [0, 1, 1, 2, 4, 8, 1, 1, 2, 4, 8]

/-- `IFD0_TAGS` (lines 2872-2882). -/
def IFD0_TAGS : List (Nat × String) :=
  [(0x010F, "Make"), (0x0110, "Model"), (0x0112, "Orientation"),
   (0x011A, "X Resolution"), (0x011B, "Y Resolution"), (0x0131, "Software"),
   (0x0132, "Date/Time"), (0x013B, "Artist"), (0x8298, "Copyright")]

/-- `EXIF_TAGS` (lines 2885-2901). -/
def EXIF_TAGS : List (Nat × String) :=
  [(0x829A, "Exposure Time"), (0x829D, "F-Number"), (0x8827, "ISO"),
   (0x9003, "Date Original"), (0x9004, "Date Digitized"), (0x9204, "Exposure Bias"),
   (0x9207, "Metering Mode"), (0x9209, "Flash"), (0x920A, "Focal Length"),
   (0xA001, "Color Space"), (0xA002, "Width"), (0xA003, "Height"),
   (0xA402, "Exposure Mode"), (0xA403, "White Balance"), (0xA434, "Lens Model")]

/-- `read_tag_value` (lines 2995-3094): the value is inline when
`type_size * count <= 4`, otherwise the value field is an offset; each typed
branch bounds-checks its reads and yields `none` (skip the tag) on failure. -/
def read_tag_value (d : List Nat) (value_off dtype count : Nat) (le : Bool)
    (tag : Nat) : PRes (Option ExifVal) :=
  if dtype < type_sizes.length then
    match (if type_sizes.getD dtype 0 * count ≤ 4 then PRes.ok (some value_off)
           else read_u32 d le value_off) with
    | .crash => .crash
    | .ok none => .ok none
    | .ok (some data_off) =>
      if dtype = 2 then
        if data_off + count > d.length then .ok none
        else
          .ok (some (.ascii ((((d.drop data_off).take count).takeWhile
            (fun b => b != 0)).map (fun b => if 32 ≤ b ∧ b ≤ 126 then b else 63))))
      else if dtype = 3 then
        match read_u16 d le data_off with
        | .crash => .crash
        | .ok none => .ok none
        | .ok (some val) => .ok (some (.short tag val))
      else if dtype = 4 then
        match read_u32 d le data_off with
        | .crash => .crash
        | .ok none => .ok none
        | .ok (some val) => .ok (some (.long val))
      else if dtype = 5 then
        match read_u32 d le data_off with
        | .crash => .crash
        | .ok none => .ok none
        | .ok (some num) =>
          match read_u32 d le (data_off + 4) with
          | .crash => .crash
          | .ok none => .ok none
          | .ok (some den) => .ok (some (.rational tag num den))
      else if dtype = 10 then
        match read_i32 d le data_off with
        | .crash => .crash
        | .ok none => .ok none
        | .ok (some num) =>
          match read_i32 d le (data_off + 4) with
          | .crash => .crash
          | .ok none => .ok none
          | .ok (some den) => .ok (some (.srational tag num den))
      else .ok none
  else .ok none

/-- Entry loop of `parse_ifd_tags` (lines 2947-2992): walks up to `rem` more
12-byte entries, intercepts the EXIF (0x8769) and GPS (0x8825) sub-IFD
pointer tags, looks the tag up in the known-tag table, reads its value and
appends it when non-empty.  The `cnt` component counts the entries examined,
for the resource-bound claim. -/
def parse_ifd_loop (d : List Nat) (le : Bool) (known : List (Nat × String))
    (entries_start : Nat) :
    Nat → Nat → List (String × ExifVal) → Option Nat → Option Nat → Nat →
    PRes (List (String × ExifVal) × Option Nat × Option Nat × Nat)
  | _, 0, acc, ex, gp, cnt => .ok (acc, ex, gp, cnt)
  | i, rem + 1, acc, ex, gp, cnt =>
    if entries_start + i * 12 + 12 > d.length then .ok (acc, ex, gp, cnt)
    else
      match read_u16 d le (entries_start + i * 12) with
      | .crash => .crash
      | .ok none => parse_ifd_loop d le known entries_start (i + 1) rem acc ex gp (cnt + 1)
      | .ok (some tag) =>
        match read_u16 d le (entries_start + i * 12 + 2) with
        | .crash => .crash
        | .ok none => parse_ifd_loop d le known entries_start (i + 1) rem acc ex gp (cnt + 1)
        | .ok (some dtype) =>
          match read_u32 d le (entries_start + i * 12 + 4) with
          | .crash => .crash
          | .ok none => parse_ifd_loop d le known entries_start (i + 1) rem acc ex gp (cnt + 1)
          | .ok (some count) =>
            if tag = 0x8769 then
              match read_u32 d le (entries_start + i * 12 + 8) with
              | .crash => .crash
              | .ok none =>
                parse_ifd_loop d le known entries_start (i + 1) rem acc ex gp (cnt + 1)
              | .ok (some off) =>
                parse_ifd_loop d le known entries_start (i + 1) rem acc (some off) gp (cnt + 1)
            else if tag = 0x8825 then
              match read_u32 d le (entries_start + i * 12 + 8) with
              | .crash => .crash
              | .ok none =>
                parse_ifd_loop d le known entries_start (i + 1) rem acc ex gp (cnt + 1)
              | .ok (some off) =>
                parse_ifd_loop d le known entries_start (i + 1) rem acc ex (some off) (cnt + 1)
            else
              match known.find? (fun kt => kt.1 == tag) with
              | none => parse_ifd_loop d le known entries_start (i + 1) rem acc ex gp (cnt + 1)
              | some kt =>
                match read_tag_value d (entries_start + i * 12 + 8) dtype count le tag with
                | .crash => .crash
                | .ok none =>
                  parse_ifd_loop d le known entries_start (i + 1) rem acc ex gp (cnt + 1)
                | .ok (some v) =>
                  if exif_val_is_empty v then
                    parse_ifd_loop d le known entries_start (i + 1) rem acc ex gp (cnt + 1)
                  else
                    parse_ifd_loop d le known entries_start (i + 1) rem
                      (acc ++ [(kt.2, v)]) ex gp (cnt + 1)

/-- `parse_ifd_tags` (lines 2907-2993): bounds-check the IFD offset, read the
16-bit entry count, walk the entries.  Returns the tags this IFD contributes,
the sub-IFD offsets it discovered, and the number of entries examined. -/
def parse_ifd_tags (d : List Nat) (ifd_offset : Nat) (le : Bool)
    (known : List (Nat × String)) :
    PRes (List (String × ExifVal) × Option Nat × Option Nat × Nat) :=
  if ifd_offset + 2 > d.length then .ok ([], none, none, 0)
  else
    match read_u16 d le ifd_offset with
    | .crash => .crash
    | .ok none => .ok ([], none, none, 0)
    | .ok (some entry_count) =>
      parse_ifd_loop d le known (ifd_offset + 2) 0 entry_count [] none none 0

/-- `read_gps_coord` (lines 3356-3376): three RATIONAL pairs; each
denominator is clamped to at least 1 (the source then divides in `f64`; the
pairs are kept structurally). -/
def read_gps_coord (d : List Nat) (off : Nat) (le : Bool) :
    PRes (Option ((Nat × Nat) × (Nat × Nat) × (Nat × Nat))) :=
  match read_u32 d le off with
  | .crash => .crash
  | .ok none => .ok none
  | .ok (some deg_n) =>
    match read_u32 d le (off + 4) with
    | .crash => .crash
    | .ok none => .ok none
    | .ok (some deg_d) =>
      match read_u32 d le (off + 8) with
      | .crash => .crash
      | .ok none => .ok none
      | .ok (some min_n) =>
        match read_u32 d le (off + 12) with
        | .crash => .crash
        | .ok none => .ok none
        | .ok (some min_d) =>
          match read_u32 d le (off + 16) with
          | .crash => .crash
          | .ok none => .ok none
          | .ok (some sec_n) =>
            match read_u32 d le (off + 20) with
            | .crash => .crash
            | .ok none => .ok none
            | .ok (some sec_d) =>
              .ok (some ((deg_n, max deg_d 1), (min_n, max min_d 1),
                (sec_n, max sec_d 1)))

/-- Entry loop of `parse_gps_tags` (lines 3267-3335): accumulates the
hemisphere references, coordinate triples and altitude; `cnt` counts entries
examined. -/
def parse_gps_loop (d : List Nat) (le : Bool) (entries_start : Nat) :
    Nat → Nat → Option Nat → Option Nat →
    Option ((Nat × Nat) × (Nat × Nat) × (Nat × Nat)) →
    Option ((Nat × Nat) × (Nat × Nat) × (Nat × Nat)) →
    Option (Nat × Nat) → Nat →
    PRes ((Option Nat × Option Nat ×
      Option ((Nat × Nat) × (Nat × Nat) × (Nat × Nat)) ×
      Option ((Nat × Nat) × (Nat × Nat) × (Nat × Nat)) ×
      Option (Nat × Nat)) × Nat)
  | _, 0, latr, lonr, latv, lonv, alt, cnt => .ok ((latr, lonr, latv, lonv, alt), cnt)
  | i, rem + 1, latr, lonr, latv, lonv, alt, cnt =>
    if entries_start + i * 12 + 12 > d.length then .ok ((latr, lonr, latv, lonv, alt), cnt)
    else
      match read_u16 d le (entries_start + i * 12) with
      | .crash => .crash
      | .ok none => parse_gps_loop d le entries_start (i + 1) rem latr lonr latv lonv alt (cnt + 1)
      | .ok (some tag) =>
        match read_u16 d le (entries_start + i * 12 + 2) with
        | .crash => .crash
        | .ok none => parse_gps_loop d le entries_start (i + 1) rem latr lonr latv lonv alt (cnt + 1)
        | .ok (some dtype) =>
          match read_u32 d le (entries_start + i * 12 + 4) with
          | .crash => .crash
          | .ok none => parse_gps_loop d le entries_start (i + 1) rem latr lonr latv lonv alt (cnt + 1)
          | .ok (some count) =>
            if dtype < type_sizes.length then
              match (if type_sizes.getD dtype 0 * count ≤ 4 then
                       PRes.ok (some (entries_start + i * 12 + 8))
                     else read_u32 d le (entries_start + i * 12 + 8)) with
              | .crash => .crash
              | .ok none =>
                parse_gps_loop d le entries_start (i + 1) rem latr lonr latv lonv alt (cnt + 1)
              | .ok (some data_off) =>
                if tag = 0x0001 then
                  if data_off < d.length then
                    match idx d data_off with
                    | .crash => .crash
                    | .ok b =>
                      parse_gps_loop d le entries_start (i + 1) rem (some b) lonr latv lonv alt (cnt + 1)
                  else
                    parse_gps_loop d le entries_start (i + 1) rem latr lonr latv lonv alt (cnt + 1)
                else if tag = 0x0002 then
                  if dtype = 5 ∧ count = 3 then
                    match read_gps_coord d data_off le with
                    | .crash => .crash
                    | .ok o =>
                      parse_gps_loop d le entries_start (i + 1) rem latr lonr o lonv alt (cnt + 1)
                  else
                    parse_gps_loop d le entries_start (i + 1) rem latr lonr latv lonv alt (cnt + 1)
                else if tag = 0x0003 then
                  if data_off < d.length then
                    match idx d data_off with
                    | .crash => .crash
                    | .ok b =>
                      parse_gps_loop d le entries_start (i + 1) rem latr (some b) latv lonv alt (cnt + 1)
                  else
                    parse_gps_loop d le entries_start (i + 1) rem latr lonr latv lonv alt (cnt + 1)
                else if tag = 0x0004 then
                  if dtype = 5 ∧ count = 3 then
                    match read_gps_coord d data_off le with
                    | .crash => .crash
                    | .ok o =>
                      parse_gps_loop d le entries_start (i + 1) rem latr lonr latv o alt (cnt + 1)
                  else
                    parse_gps_loop d le entries_start (i + 1) rem latr lonr latv lonv alt (cnt + 1)
                else if tag = 0x0006 then
                  if dtype = 5 then
                    match read_u32 d le data_off with
                    | .crash => .crash
                    | .ok onum =>
                      match read_u32 d le (data_off + 4) with
                      | .crash => .crash
                      | .ok oden =>
                        parse_gps_loop d le entries_start (i + 1) rem latr lonr latv lonv
                          (some (onum.getD 0, max (oden.getD 1) 1)) (cnt + 1)
                  else
                    parse_gps_loop d le entries_start (i + 1) rem latr lonr latv lonv alt (cnt + 1)
                else
                  parse_gps_loop d le entries_start (i + 1) rem latr lonr latv lonv alt (cnt + 1)
            else
              parse_gps_loop d le entries_start (i + 1) rem latr lonr latv lonv alt (cnt + 1)

/-- `parse_gps_tags` (lines 3229-3354): walk the GPS IFD, then push a "GPS"
pair when both coordinate triples and hemisphere references are present, and
an "Altitude" pair when an altitude was seen. -/
def parse_gps_tags (d : List Nat) (ifd_offset : Nat) (le : Bool) :
    PRes (List (String × ExifVal) × Nat) :=
  if ifd_offset + 2 > d.length then .ok ([], 0)
  else
    match read_u16 d le ifd_offset with
    | .crash => .crash
    | .ok none => .ok ([], 0)
    | .ok (some entry_count) =>
      match parse_gps_loop d le (ifd_offset + 2) 0 entry_count none none none none none 0 with
      | .crash => .crash
      | .ok ((latr, lonr, latv, lonv, alt), cnt) =>
        .ok ((match latv, latr with
              | some lat, some r =>
                (match lonv, lonr with
                 | some lon, some lr => [("GPS", ExifVal.gps r lat lr lon)]
                 | _, _ => [])
              | _, _ => []) ++
             (match alt with
              | some a => [("Altitude", ExifVal.altitude a.1 a.2)]
              | none => []), cnt)

/-- Body of `parse_all_exif_tags` after the byte-order mark (lines
2834-2868): magic check, IFD0 offset, IFD0 walk, at most one EXIF sub-IFD
walk and one GPS IFD walk; the sub-IFD walks discard any pointer tags they
encounter (the source passes fresh `&mut None` receivers at line 2860). -/
def pae_after_bom (d : List Nat) (le : Bool) :
    PRes (List (String × ExifVal) × Nat) :=
  match read_u16 d le 2 with
  | .crash => .crash
  | .ok m =>
    if m ≠ some 42 then .ok ([], 0)
    else
      match read_u32 d le 4 with
      | .crash => .crash
      | .ok none => .ok ([], 0)
      | .ok (some ifd_offset) =>
        match parse_ifd_tags d ifd_offset le IFD0_TAGS with
        | .crash => .crash
        | .ok (tags0, exoff, gpoff, c0) =>
          match (match exoff with
                 | none =>
                   (.ok ([], none, none, 0) :
                     PRes (List (String × ExifVal) × Option Nat × Option Nat × Nat))
                 | some o => parse_ifd_tags d o le EXIF_TAGS) with
          | .crash => .crash
          | .ok (tagsE, _, _, c1) =>
            match (match gpoff with
                   | none => (.ok ([], 0) : PRes (List (String × ExifVal) × Nat))
                   | some o => parse_gps_tags d o le) with
            | .crash => .crash
            | .ok (tagsG, c2) => .ok (tags0 ++ tagsE ++ tagsG, c0 + c1 + c2)

/-- `parse_all_exif_tags` (lines 2800-2869) instrumented with the total
number of IFD entries examined. -/
def parse_all_exif_core (data : List Nat) (tiff_offset : Nat) :
    PRes (List (String × ExifVal) × Nat) :=
  if tiff_offset + 8 > data.length then .ok ([], 0)
  else
    match idx (data.drop tiff_offset) 0, idx (data.drop tiff_offset) 1 with
    | .ok b0, .ok b1 =>
      if b0 = 73 ∧ b1 = 73 then pae_after_bom (data.drop tiff_offset) true
      else if b0 = 77 ∧ b1 = 77 then pae_after_bom (data.drop tiff_offset) false
      else .ok ([], 0)
    | _, _ => .crash

/-- `parse_all_exif_tags` proper: the tag list, dropping the instrumentation
counter. -/
def parse_all_exif_tags (data : List Nat) (tiff_offset : Nat) :
    PRes (List (String × ExifVal)) :=
  match parse_all_exif_core data tiff_offset with
  | .crash => .crash
  | .ok (tags, _) => .ok tags

/-- Total number of IFD entries the full EXIF parse examines. -/
def parse_visited (data : List Nat) (tiff_offset : Nat) : Nat :=
  match parse_all_exif_core data tiff_offset with
  | .crash => 0
  | .ok (_, cnt) => cnt

theorem idx_ok_of_lt (d : List Nat) (i : Nat) (h : i < d.length) :
    idx d i = .ok (d.getD i 0) := by
  unfold idx; rw [if_pos h]

theorem isOk_of_ex {α : Type} {x : PRes α} (h : ∃ r, x = .ok r) : x.isOk = true := by
  obtain ⟨r, rfl⟩ := h; rfl

theorem read_u16_total (d : List Nat) (le : Bool) (off : Nat) :
    ∃ r, read_u16 d le off = .ok r := by
  by_cases hc : off + 2 > d.length
  · exact ⟨none, by unfold read_u16; rw [if_pos hc]⟩
  · unfold read_u16
    rw [if_neg hc, idx_ok_of_lt d off (by omega), idx_ok_of_lt d (off + 1) (by omega)]
    exact ⟨_, rfl⟩

theorem read_u32_total (d : List Nat) (le : Bool) (off : Nat) :
    ∃ r, read_u32 d le off = .ok r := by
  by_cases hc : off + 4 > d.length
  · exact ⟨none, by unfold read_u32; rw [if_pos hc]⟩
  · unfold read_u32
    rw [if_neg hc, idx_ok_of_lt d off (by omega), idx_ok_of_lt d (off + 1) (by omega),
      idx_ok_of_lt d (off + 2) (by omega), idx_ok_of_lt d (off + 3) (by omega)]
    exact ⟨_, rfl⟩

theorem read_i32_total (d : List Nat) (le : Bool) (off : Nat) :
    ∃ r, read_i32 d le off = .ok r := by
  obtain ⟨r, hr⟩ := read_u32_total d le off
  cases r with
  | none => exact ⟨none, by unfold read_i32; rw [hr]⟩
  | some u => exact ⟨some (as_i32 u), by unfold read_i32; rw [hr]⟩

theorem read_tag_value_total (d : List Nat) (value_off dtype count : Nat)
    (le : Bool) (tag : Nat) :
    ∃ r, read_tag_value d value_off dtype count le tag = .ok r := by
  unfold read_tag_value
  by_cases hts : dtype < type_sizes.length
  · rw [if_pos hts]
    obtain ⟨ro, hro⟩ : ∃ ro, (if type_sizes.getD dtype 0 * count ≤ 4 then
        PRes.ok (some value_off) else read_u32 d le value_off) = .ok ro := by
      by_cases hin : type_sizes.getD dtype 0 * count ≤ 4
      · rw [if_pos hin]; exact ⟨some value_off, rfl⟩
      · rw [if_neg hin]; exact read_u32_total d le value_off
    rw [hro]
    cases ro with
    | none => exact ⟨none, rfl⟩
    | some data_off =>
      dsimp only
      split_ifs
      · exact ⟨none, rfl⟩
      · exact ⟨_, rfl⟩
      · obtain ⟨rv, hrv⟩ := read_u16_total d le data_off
        rw [hrv]
        cases rv with
        | none => exact ⟨none, rfl⟩
        | some v => exact ⟨some (.short tag v), rfl⟩
      · obtain ⟨rv, hrv⟩ := read_u32_total d le data_off
        rw [hrv]
        cases rv with
        | none => exact ⟨none, rfl⟩
        | some v => exact ⟨some (.long v), rfl⟩
      · obtain ⟨rn, hrn⟩ := read_u32_total d le data_off
        rw [hrn]
        cases rn with
        | none => exact ⟨none, rfl⟩
        | some num =>
          dsimp only
          obtain ⟨rd, hrd⟩ := read_u32_total d le (data_off + 4)
          rw [hrd]
          cases rd with
          | none => exact ⟨none, rfl⟩
          | some den => exact ⟨some (.rational tag num den), rfl⟩
      · obtain ⟨rn, hrn⟩ := read_i32_total d le data_off
        rw [hrn]
        cases rn with
        | none => exact ⟨none, rfl⟩
        | some num =>
          dsimp only
          obtain ⟨rd, hrd⟩ := read_i32_total d le (data_off + 4)
          rw [hrd]
          cases rd with
          | none => exact ⟨none, rfl⟩
          | some den => exact ⟨some (.srational tag num den), rfl⟩
      · exact ⟨none, rfl⟩
  · rw [if_neg hts]; exact ⟨none, rfl⟩

theorem pto_loop_total (d : List Nat) (le : Bool) (entries_start : Nat) :
    ∀ (rem i : Nat), ∃ r, pto_loop d le entries_start i rem = .ok r := by
  intro rem
  induction rem with
  | zero => intro i; exact ⟨none, rfl⟩
  | succ rem ih =>
    intro i
    unfold pto_loop
    split_ifs with hb
    · exact ⟨none, rfl⟩
    · obtain ⟨rt, hrt⟩ := read_u16_total d le (entries_start + i * 12)
      rw [hrt]
      cases rt with
      | none => exact ⟨none, rfl⟩
      | some tag =>
        dsimp only
        split_ifs with htag
        · obtain ⟨rv, hrv⟩ := read_u16_total d le (entries_start + i * 12 + 8)
          rw [hrv]
          cases rv with
          | none => exact ⟨none, rfl⟩
          | some v => exact ⟨some v, rfl⟩
        · exact ih (i + 1)

theorem pto_after_bom_total (d : List Nat) (le : Bool) :
    ∃ r, pto_after_bom d le = .ok r := by
  unfold pto_after_bom
  obtain ⟨rm, hrm⟩ := read_u16_total d le 2
  rw [hrm]
  cases rm with
  | none => exact ⟨none, rfl⟩
  | some magic =>
    dsimp only
    split_ifs with hm
    · exact ⟨none, rfl⟩
    · obtain ⟨ro, hro⟩ := read_u32_total d le 4
      rw [hro]
      cases ro with
      | none => exact ⟨none, rfl⟩
      | some ifd_offset =>
        dsimp only
        split_ifs with hio
        · exact ⟨none, rfl⟩
        · obtain ⟨re, hre⟩ := read_u16_total d le ifd_offset
          rw [hre]
          cases re with
          | none => exact ⟨none, rfl⟩
          | some entry_count => exact pto_loop_total d le (ifd_offset + 2) entry_count 0

theorem parse_tiff_orientation_total (data : List Nat) (tiff_offset : Nat) :
    ∃ r, parse_tiff_orientation data tiff_offset = .ok r := by
  by_cases hc : tiff_offset + 8 > data.length
  · exact ⟨none, by unfold parse_tiff_orientation; rw [if_pos hc]⟩
  · have hlen : (data.drop tiff_offset).length = data.length - tiff_offset :=
      List.length_drop tiff_offset data
    unfold parse_tiff_orientation
    rw [if_neg hc, idx_ok_of_lt (data.drop tiff_offset) 0 (by omega),
      idx_ok_of_lt (data.drop tiff_offset) 1 (by omega)]
    dsimp only
    split_ifs with h1 h2
    · exact pto_after_bom_total (data.drop tiff_offset) true
    · exact pto_after_bom_total (data.drop tiff_offset) false
    · exact ⟨none, rfl⟩

theorem parse_ifd_loop_total (d : List Nat) (le : Bool) (known : List (Nat × String))
    (entries_start : Nat) :
    ∀ (rem i : Nat) (acc : List (String × ExifVal)) (ex gp : Option Nat) (cnt : Nat),
      ∃ r, parse_ifd_loop d le known entries_start i rem acc ex gp cnt = .ok r := by
  intro rem
  induction rem with
  | zero => intro i acc ex gp cnt; exact ⟨_, rfl⟩
  | succ rem ih =>
    intro i acc ex gp cnt
    unfold parse_ifd_loop
    split_ifs with hb
    · exact ⟨_, rfl⟩
    · obtain ⟨rt, hrt⟩ := read_u16_total d le (entries_start + i * 12)
      rw [hrt]
      cases rt with
      | none => exact ih (i + 1) acc ex gp (cnt + 1)
      | some tag =>
        dsimp only
        obtain ⟨rd, hrd⟩ := read_u16_total d le (entries_start + i * 12 + 2)
        rw [hrd]
        cases rd with
        | none => exact ih (i + 1) acc ex gp (cnt + 1)
        | some dtype =>
          dsimp only
          obtain ⟨rc, hrc⟩ := read_u32_total d le (entries_start + i * 12 + 4)
          rw [hrc]
          cases rc with
          | none => exact ih (i + 1) acc ex gp (cnt + 1)
          | some count =>
            dsimp only
            split_ifs with h69 h25
            · obtain ⟨ro, hro⟩ := read_u32_total d le (entries_start + i * 12 + 8)
              rw [hro]
              cases ro with
              | none => exact ih (i + 1) acc ex gp (cnt + 1)
              | some off => exact ih (i + 1) acc (some off) gp (cnt + 1)
            · obtain ⟨ro, hro⟩ := read_u32_total d le (entries_start + i * 12 + 8)
              rw [hro]
              cases ro with
              | none => exact ih (i + 1) acc ex gp (cnt + 1)
              | some off => exact ih (i + 1) acc ex (some off) (cnt + 1)
            · cases hf : known.find? (fun kt => kt.1 == tag) with
              | none => exact ih (i + 1) acc ex gp (cnt + 1)
              | some kt =>
                obtain ⟨rv, hrv⟩ := read_tag_value_total d (entries_start + i * 12 + 8)
                  dtype count le tag
                rw [hrv]
                cases rv with
                | none => exact ih (i + 1) acc ex gp (cnt + 1)
                | some v =>
                  dsimp only
                  split_ifs with he
                  · exact ih (i + 1) acc ex gp (cnt + 1)
                  · exact ih (i + 1) (acc ++ [(kt.2, v)]) ex gp (cnt + 1)

theorem parse_ifd_tags_total (d : List Nat) (ifd_offset : Nat) (le : Bool)
    (known : List (Nat × String)) :
    ∃ r, parse_ifd_tags d ifd_offset le known = .ok r := by
  unfold parse_ifd_tags
  split_ifs with hc
  · exact ⟨_, rfl⟩
  · obtain ⟨re, hre⟩ := read_u16_total d le ifd_offset
    rw [hre]
    cases re with
    | none => exact ⟨_, rfl⟩
    | some entry_count =>
      exact parse_ifd_loop_total d le known (ifd_offset + 2) entry_count 0 [] none none 0

theorem read_gps_coord_total (d : List Nat) (off : Nat) (le : Bool) :
    ∃ r, read_gps_coord d off le = .ok r := by
  unfold read_gps_coord
  obtain ⟨r1, h1⟩ := read_u32_total d le off
  rw [h1]
  cases r1 with
  | none => exact ⟨none, rfl⟩
  | some deg_n =>
    dsimp only
    obtain ⟨r2, h2⟩ := read_u32_total d le (off + 4)
    rw [h2]
    cases r2 with
    | none => exact ⟨none, rfl⟩
    | some deg_d =>
      dsimp only
      obtain ⟨r3, h3⟩ := read_u32_total d le (off + 8)
      rw [h3]
      cases r3 with
      | none => exact ⟨none, rfl⟩
      | some min_n =>
        dsimp only
        obtain ⟨r4, h4⟩ := read_u32_total d le (off + 12)
        rw [h4]
        cases r4 with
        | none => exact ⟨none, rfl⟩
        | some min_d =>
          dsimp only
          obtain ⟨r5, h5⟩ := read_u32_total d le (off + 16)
          rw [h5]
          cases r5 with
          | none => exact ⟨none, rfl⟩
          | some sec_n =>
            dsimp only
            obtain ⟨r6, h6⟩ := read_u32_total d le (off + 20)
            rw [h6]
            cases r6 with
            | none => exact ⟨none, rfl⟩
            | some sec_d => exact ⟨_, rfl⟩

theorem parse_gps_loop_total (d : List Nat) (le : Bool) (entries_start : Nat) :
    ∀ (rem i : Nat) (latr lonr : Option Nat)
      (latv lonv : Option ((Nat × Nat) × (Nat × Nat) × (Nat × Nat)))
      (alt : Option (Nat × Nat)) (cnt : Nat),
      ∃ r, parse_gps_loop d le entries_start i rem latr lonr latv lonv alt cnt = .ok r := by
  intro rem
  induction rem with
  | zero => intro i latr lonr latv lonv alt cnt; exact ⟨_, rfl⟩
  | succ rem ih =>
    intro i latr lonr latv lonv alt cnt
    unfold parse_gps_loop
    split_ifs with hb
    · exact ⟨_, rfl⟩
    · obtain ⟨rt, hrt⟩ := read_u16_total d le (entries_start + i * 12)
      rw [hrt]
      cases rt with
      | none => exact ih (i + 1) latr lonr latv lonv alt (cnt + 1)
      | some tag =>
        dsimp only
        obtain ⟨rd, hrd⟩ := read_u16_total d le (entries_start + i * 12 + 2)
        rw [hrd]
        cases rd with
        | none => exact ih (i + 1) latr lonr latv lonv alt (cnt + 1)
        | some dtype =>
          dsimp only
          obtain ⟨rc, hrc⟩ := read_u32_total d le (entries_start + i * 12 + 4)
          rw [hrc]
          cases rc with
          | none => exact ih (i + 1) latr lonr latv lonv alt (cnt + 1)
          | some count =>
            dsimp only
            by_cases hdt : dtype < type_sizes.length
            · rw [if_pos hdt]
              obtain ⟨ro, hro⟩ : ∃ ro, (if type_sizes.getD dtype 0 * count ≤ 4 then
                  PRes.ok (some (entries_start + i * 12 + 8))
                  else read_u32 d le (entries_start + i * 12 + 8)) = .ok ro := by
                by_cases hin : type_sizes.getD dtype 0 * count ≤ 4
                · rw [if_pos hin]; exact ⟨_, rfl⟩
                · rw [if_neg hin]; exact read_u32_total d le (entries_start + i * 12 + 8)
              rw [hro]
              cases ro with
              | none => exact ih (i + 1) latr lonr latv lonv alt (cnt + 1)
              | some data_off =>
                dsimp only
                split_ifs with h1 hdl h2 hc2 h3 hdl3 h4 hc4 h6 hd6
                · rw [idx_ok_of_lt d data_off hdl]
                  exact ih (i + 1) (some (d.getD data_off 0)) lonr latv lonv alt (cnt + 1)
                · exact ih (i + 1) latr lonr latv lonv alt (cnt + 1)
                · obtain ⟨rg, hrg⟩ := read_gps_coord_total d data_off le
                  rw [hrg]
                  exact ih (i + 1) latr lonr rg lonv alt (cnt + 1)
                · exact ih (i + 1) latr lonr latv lonv alt (cnt + 1)
                · rw [idx_ok_of_lt d data_off hdl3]
                  exact ih (i + 1) latr (some (d.getD data_off 0)) latv lonv alt (cnt + 1)
                · exact ih (i + 1) latr lonr latv lonv alt (cnt + 1)
                · obtain ⟨rg, hrg⟩ := read_gps_coord_total d data_off le
                  rw [hrg]
                  exact ih (i + 1) latr lonr latv rg alt (cnt + 1)
                · exact ih (i + 1) latr lonr latv lonv alt (cnt + 1)
                · obtain ⟨rn, hrn⟩ := read_u32_total d le data_off
                  rw [hrn]
                  dsimp only
                  obtain ⟨rdn, hrdn⟩ := read_u32_total d le (data_off + 4)
                  rw [hrdn]
                  exact ih (i + 1) latr lonr latv lonv
                    (some (rn.getD 0, max (rdn.getD 1) 1)) (cnt + 1)
                · exact ih (i + 1) latr lonr latv lonv alt (cnt + 1)
                · exact ih (i + 1) latr lonr latv lonv alt (cnt + 1)
            · rw [if_neg hdt]
              exact ih (i + 1) latr lonr latv lonv alt (cnt + 1)

theorem parse_gps_tags_total (d : List Nat) (ifd_offset : Nat) (le : Bool) :
    ∃ r, parse_gps_tags d ifd_offset le = .ok r := by
  unfold parse_gps_tags
  split_ifs with hc
  · exact ⟨_, rfl⟩
  · obtain ⟨re, hre⟩ := read_u16_total d le ifd_offset
    rw [hre]
    cases re with
    | none => exact ⟨_, rfl⟩
    | some entry_count =>
      dsimp only
      obtain ⟨rl, hrl⟩ := parse_gps_loop_total d le (ifd_offset + 2) entry_count 0
        none none none none none 0
      rw [hrl]
      exact ⟨_, rfl⟩

theorem pae_after_bom_total (d : List Nat) (le : Bool) :
    ∃ r, pae_after_bom d le = .ok r := by
  unfold pae_after_bom
  obtain ⟨rm, hrm⟩ := read_u16_total d le 2
  rw [hrm]
  dsimp only
  split_ifs with hm
  · exact ⟨_, rfl⟩
  · obtain ⟨ro, hro⟩ := read_u32_total d le 4
    rw [hro]
    cases ro with
    | none => exact ⟨_, rfl⟩
    | some ifd_offset =>
      dsimp only
      obtain ⟨r0, hr0⟩ := parse_ifd_tags_total d ifd_offset le IFD0_TAGS
      rw [hr0]
      obtain ⟨tags0, exoff, gpoff, c0⟩ := r0
      dsimp only
      obtain ⟨r1, hr1⟩ : ∃ r1, (match exoff with
          | none =>
            (.ok ([], none, none, 0) :
              PRes (List (String × ExifVal) × Option Nat × Option Nat × Nat))
          | some o => parse_ifd_tags d o le EXIF_TAGS) = .ok r1 := by
        cases exoff with
        | none => exact ⟨_, rfl⟩
        | some o => exact parse_ifd_tags_total d o le EXIF_TAGS
      rw [hr1]
      obtain ⟨tagsE, xe, xg, c1⟩ := r1
      dsimp only
      obtain ⟨r2, hr2⟩ : ∃ r2, (match gpoff with
          | none => (.ok ([], 0) : PRes (List (String × ExifVal) × Nat))
          | some o => parse_gps_tags d o le) = .ok r2 := by
        cases gpoff with
        | none => exact ⟨_, rfl⟩
        | some o => exact parse_gps_tags_total d o le
      rw [hr2]
      exact ⟨_, rfl⟩

theorem parse_all_exif_core_total (data : List Nat) (tiff_offset : Nat) :
    ∃ r, parse_all_exif_core data tiff_offset = .ok r := by
  by_cases hc : tiff_offset + 8 > data.length
  · exact ⟨_, by unfold parse_all_exif_core; rw [if_pos hc]⟩
  · have hlen : (data.drop tiff_offset).length = data.length - tiff_offset :=
      List.length_drop tiff_offset data
    unfold parse_all_exif_core
    rw [if_neg hc, idx_ok_of_lt (data.drop tiff_offset) 0 (by omega),
      idx_ok_of_lt (data.drop tiff_offset) 1 (by omega)]
    dsimp only
    split_ifs with h1 h2
    · exact pae_after_bom_total (data.drop tiff_offset) true
    · exact pae_after_bom_total (data.drop tiff_offset) false
    · exact ⟨_, rfl⟩

theorem parse_all_exif_tags_total (data : List Nat) (tiff_offset : Nat) :
    ∃ r, parse_all_exif_tags data tiff_offset = .ok r := by
  obtain ⟨r, hr⟩ := parse_all_exif_core_total data tiff_offset
  exact ⟨r.1, by unfold parse_all_exif_tags; rw [hr]⟩

/-- C1: for every input byte slice and starting offset, the TIFF/EXIF tag
walker — `parse_tiff_orientation`, `parse_all_exif_tags` and their shared
value reader `read_tag_value` — never panics (never indexes out of the
slice), and on truncated input (fewer than 8 bytes past the offset) it fails
soft, returning `none` respectively the empty tag list. -/
theorem exif_walker_no_panic (data : List Nat) (off : Nat) (d : List Nat)
    (value_off dtype count : Nat) (le : Bool) (tag : Nat) :
    (parse_tiff_orientation data off).isOk = true ∧
    (parse_all_exif_tags data off).isOk = true ∧
    (read_tag_value d value_off dtype count le tag).isOk = true ∧
    (off + 8 > data.length → parse_tiff_orientation data off = .ok none) ∧
    (off + 8 > data.length → parse_all_exif_tags data off = .ok []) := by
  refine ⟨isOk_of_ex (parse_tiff_orientation_total data off),
    isOk_of_ex (parse_all_exif_tags_total data off),
    isOk_of_ex (read_tag_value_total d value_off dtype count le tag), ?_, ?_⟩
  · intro hc
    unfold parse_tiff_orientation
    rw [if_pos hc]
  · intro hc
    have hcore : parse_all_exif_core data off = .ok ([], 0) := by
      unfold parse_all_exif_core; rw [if_pos hc]
    unfold parse_all_exif_tags
    rw [hcore]

/-- Witness for C1 at a concrete one-byte input. -/
theorem exif_walker_no_panic_witness :
    (parse_tiff_orientation [0] 0).isOk = true ∧
    (parse_all_exif_tags [0] 0).isOk = true ∧
    (read_tag_value [0] 0 0 0 true 0).isOk = true ∧
    parse_tiff_orientation [0] 0 = .ok none ∧
    parse_all_exif_tags [0] 0 = .ok [] := by
  obtain ⟨h1, h2, h3, h4, h5⟩ := exif_walker_no_panic [0] 0 [0] 0 0 0 true 0
  exact ⟨h1, h2, h3, h4 (by decide), h5 (by decide)⟩

theorem getD_lt_of_mem_bound (d : List Nat) (i : Nat) (hi : i < d.length)
    (hb : ∀ b ∈ d, b < 256) : d.getD i 0 < 256 := by
  rw [List.getD_eq_getElem d 0 hi]
  exact hb _ (List.getElem_mem hi)

theorem read_u16_le (d : List Nat) (le : Bool) (off : Nat)
    (hb : ∀ b ∈ d, b < 256) (v : Nat) (h : read_u16 d le off = .ok (some v)) :
    v ≤ 65535 := by
  unfold read_u16 at h
  by_cases hc : off + 2 > d.length
  · rw [if_pos hc] at h; simp at h
  · rw [if_neg hc, idx_ok_of_lt d off (by omega), idx_ok_of_lt d (off + 1) (by omega)] at h
    dsimp only at h
    have ha : d.getD off 0 < 256 := getD_lt_of_mem_bound d off (by omega) hb
    have hbb : d.getD (off + 1) 0 < 256 := getD_lt_of_mem_bound d (off + 1) (by omega) hb
    simp only [PRes.ok.injEq, Option.some.injEq] at h
    split_ifs at h <;> omega

theorem parse_ifd_loop_cnt (d : List Nat) (le : Bool) (known : List (Nat × String))
    (es : Nat) :
    ∀ (rem i : Nat) (acc : List (String × ExifVal)) (ex gp : Option Nat) (cnt : Nat)
      (r : List (String × ExifVal) × Option Nat × Option Nat × Nat),
      parse_ifd_loop d le known es i rem acc ex gp cnt = .ok r → r.2.2.2 ≤ cnt + rem := by
  intro rem
  induction rem with
  | zero =>
    intro i acc ex gp cnt r h
    cases h
    dsimp only
    omega
  | succ rem ih =>
    intro i acc ex gp cnt r h
    unfold parse_ifd_loop at h
    split_ifs at h with hb
    · cases h; dsimp only; omega
    · obtain ⟨rt, hrt⟩ := read_u16_total d le (es + i * 12)
      rw [hrt] at h
      cases rt with
      | none => have := ih (i + 1) acc ex gp (cnt + 1) r h; omega
      | some tag =>
        dsimp only at h
        obtain ⟨rd, hrd⟩ := read_u16_total d le (es + i * 12 + 2)
        rw [hrd] at h
        cases rd with
        | none => have := ih (i + 1) acc ex gp (cnt + 1) r h; omega
        | some dtype =>
          dsimp only at h
          obtain ⟨rc, hrc⟩ := read_u32_total d le (es + i * 12 + 4)
          rw [hrc] at h
          cases rc with
          | none => have := ih (i + 1) acc ex gp (cnt + 1) r h; omega
          | some count =>
            dsimp only at h
            split_ifs at h with h69 h25
            · obtain ⟨ro, hro⟩ := read_u32_total d le (es + i * 12 + 8)
              rw [hro] at h
              cases ro with
              | none => have := ih (i + 1) acc ex gp (cnt + 1) r h; omega
              | some off => have := ih (i + 1) acc (some off) gp (cnt + 1) r h; omega
            · obtain ⟨ro, hro⟩ := read_u32_total d le (es + i * 12 + 8)
              rw [hro] at h
              cases ro with
              | none => have := ih (i + 1) acc ex gp (cnt + 1) r h; omega
              | some off => have := ih (i + 1) acc ex (some off) (cnt + 1) r h; omega
            · rcases hfind : known.find? (fun kt => kt.1 == tag) with _ | kt <;>
                rw [hfind] at h
              · have := ih (i + 1) acc ex gp (cnt + 1) r h; omega
              · obtain ⟨rv, hrv⟩ := read_tag_value_total d (es + i * 12 + 8) dtype count le tag
                rw [hrv] at h
                cases rv with
                | none => have := ih (i + 1) acc ex gp (cnt + 1) r h; omega
                | some v =>
                  dsimp only at h
                  split_ifs at h with he
                  · have := ih (i + 1) acc ex gp (cnt + 1) r h; omega
                  · have := ih (i + 1) (acc ++ [(kt.2, v)]) ex gp (cnt + 1) r h; omega

theorem parse_ifd_tags_cnt (d : List Nat) (off : Nat) (le : Bool)
    (known : List (Nat × String)) (hb : ∀ b ∈ d, b < 256)
    (r : List (String × ExifVal) × Option Nat × Option Nat × Nat)
    (h : parse_ifd_tags d off le known = .ok r) : r.2.2.2 ≤ 65535 := by
  unfold parse_ifd_tags at h
  split_ifs at h with hc
  · cases h; decide
  · obtain ⟨re, hre⟩ := read_u16_total d le off
    rw [hre] at h
    cases re with
    | none => cases h; decide
    | some ec =>
      dsimp only at h
      have hec : ec ≤ 65535 := read_u16_le d le off hb ec hre
      have := parse_ifd_loop_cnt d le known (off + 2) ec 0 [] none none 0 r h
      omega

theorem parse_gps_loop_cnt (d : List Nat) (le : Bool) (es : Nat) :
    ∀ (rem i : Nat) (latr lonr : Option Nat)
      (latv lonv : Option ((Nat × Nat) × (Nat × Nat) × (Nat × Nat)))
      (alt : Option (Nat × Nat)) (cnt : Nat)
      (r : (Option Nat × Option Nat ×
        Option ((Nat × Nat) × (Nat × Nat) × (Nat × Nat)) ×
        Option ((Nat × Nat) × (Nat × Nat) × (Nat × Nat)) ×
        Option (Nat × Nat)) × Nat),
      parse_gps_loop d le es i rem latr lonr latv lonv alt cnt = .ok r →
        r.2 ≤ cnt + rem := by
  intro rem
  induction rem with
  | zero =>
    intro i latr lonr latv lonv alt cnt r h
    cases h
    dsimp only
    omega
  | succ rem ih =>
    intro i latr lonr latv lonv alt cnt r h
    unfold parse_gps_loop at h
    split_ifs at h with hbnd
    · cases h; dsimp only; omega
    · obtain ⟨rt, hrt⟩ := read_u16_total d le (es + i * 12)
      rw [hrt] at h
      cases rt with
      | none => have := ih (i + 1) latr lonr latv lonv alt (cnt + 1) r h; omega
      | some tag =>
        dsimp only at h
        obtain ⟨rd, hrd⟩ := read_u16_total d le (es + i * 12 + 2)
        rw [hrd] at h
        cases rd with
        | none => have := ih (i + 1) latr lonr latv lonv alt (cnt + 1) r h; omega
        | some dtype =>
          dsimp only at h
          obtain ⟨rc, hrc⟩ := read_u32_total d le (es + i * 12 + 4)
          rw [hrc] at h
          cases rc with
          | none => have := ih (i + 1) latr lonr latv lonv alt (cnt + 1) r h; omega
          | some count =>
            dsimp only at h
            by_cases hdt : dtype < type_sizes.length
            · rw [if_pos hdt] at h
              obtain ⟨ro, hro⟩ : ∃ ro, (if type_sizes.getD dtype 0 * count ≤ 4 then
                  PRes.ok (some (es + i * 12 + 8))
                  else read_u32 d le (es + i * 12 + 8)) = .ok ro := by
                by_cases hin : type_sizes.getD dtype 0 * count ≤ 4
                · rw [if_pos hin]; exact ⟨_, rfl⟩
                · rw [if_neg hin]; exact read_u32_total d le (es + i * 12 + 8)
              rw [hro] at h
              cases ro with
              | none => have := ih (i + 1) latr lonr latv lonv alt (cnt + 1) r h; omega
              | some data_off =>
                dsimp only at h
                split_ifs at h with h1 hdl h2 hc2 h3 hdl3 h4 hc4 h6 hd6
                · rw [idx_ok_of_lt d data_off hdl] at h
                  have := ih (i + 1) (some (d.getD data_off 0)) lonr latv lonv alt (cnt + 1) r h
                  omega
                · have := ih (i + 1) latr lonr latv lonv alt (cnt + 1) r h; omega
                · obtain ⟨rg, hrg⟩ := read_gps_coord_total d data_off le
                  rw [hrg] at h
                  have := ih (i + 1) latr lonr rg lonv alt (cnt + 1) r h; omega
                · have := ih (i + 1) latr lonr latv lonv alt (cnt + 1) r h; omega
                · rw [idx_ok_of_lt d data_off hdl3] at h
                  have := ih (i + 1) latr (some (d.getD data_off 0)) latv lonv alt (cnt + 1) r h
                  omega
                · have := ih (i + 1) latr lonr latv lonv alt (cnt + 1) r h; omega
                · obtain ⟨rg, hrg⟩ := read_gps_coord_total d data_off le
                  rw [hrg] at h
                  have := ih (i + 1) latr lonr latv rg alt (cnt + 1) r h; omega
                · have := ih (i + 1) latr lonr latv lonv alt (cnt + 1) r h; omega
                · obtain ⟨rn, hrn⟩ := read_u32_total d le data_off
                  rw [hrn] at h
                  dsimp only at h
                  obtain ⟨rdn, hrdn⟩ := read_u32_total d le (data_off + 4)
                  rw [hrdn] at h
                  have := ih (i + 1) latr lonr latv lonv
                    (some (rn.getD 0, max (rdn.getD 1) 1)) (cnt + 1) r h
                  omega
                · have := ih (i + 1) latr lonr latv lonv alt (cnt + 1) r h; omega
                · have := ih (i + 1) latr lonr latv lonv alt (cnt + 1) r h; omega
            · rw [if_neg hdt] at h
              have := ih (i + 1) latr lonr latv lonv alt (cnt + 1) r h; omega

theorem parse_gps_tags_cnt (d : List Nat) (off : Nat) (le : Bool)
    (hb : ∀ b ∈ d, b < 256) (r : List (String × ExifVal) × Nat)
    (h : parse_gps_tags d off le = .ok r) : r.2 ≤ 65535 := by
  unfold parse_gps_tags at h
  split_ifs at h with hc
  · cases h; decide
  · obtain ⟨re, hre⟩ := read_u16_total d le off
    rw [hre] at h
    cases re with
    | none => cases h; decide
    | some ec =>
      dsimp only at h
      have hec : ec ≤ 65535 := read_u16_le d le off hb ec hre
      obtain ⟨rl, hrl⟩ := parse_gps_loop_total d le (off + 2) ec 0 none none none none none 0
      rw [hrl] at h
      obtain ⟨st, cnt⟩ := rl
      dsimp only at h
      cases h
      have := parse_gps_loop_cnt d le (off + 2) ec 0 none none none none none 0 (st, cnt) hrl
      dsimp only at this
      omega

theorem pae_after_bom_cnt (d : List Nat) (le : Bool) (hb : ∀ b ∈ d, b < 256)
    (tags : List (String × ExifVal)) (cnt : Nat)
    (h : pae_after_bom d le = .ok (tags, cnt)) : cnt ≤ 3 * 65535 := by
  unfold pae_after_bom at h
  obtain ⟨rm, hrm⟩ := read_u16_total d le 2
  rw [hrm] at h
  dsimp only at h
  split_ifs at h with hm
  · cases h; omega
  · obtain ⟨ro, hro⟩ := read_u32_total d le 4
    rw [hro] at h
    cases ro with
    | none => cases h; omega
    | some ifd_offset =>
      dsimp only at h
      obtain ⟨r0, hr0⟩ := parse_ifd_tags_total d ifd_offset le IFD0_TAGS
      rw [hr0] at h
      obtain ⟨tags0, exoff, gpoff, c0⟩ := r0
      dsimp only at h
      have hc0 : c0 ≤ 65535 := by
        have := parse_ifd_tags_cnt d ifd_offset le IFD0_TAGS hb (tags0, exoff, gpoff, c0) hr0
        simpa using this
      obtain ⟨r1, hr1, hc1⟩ : ∃ r1, (match exoff with
          | none =>
            (.ok ([], none, none, 0) :
              PRes (List (String × ExifVal) × Option Nat × Option Nat × Nat))
          | some o => parse_ifd_tags d o le EXIF_TAGS) = .ok r1 ∧ r1.2.2.2 ≤ 65535 := by
        cases exoff with
        | none => exact ⟨_, rfl, by decide⟩
        | some o =>
          obtain ⟨r1, hr1⟩ := parse_ifd_tags_total d o le EXIF_TAGS
          exact ⟨r1, hr1, parse_ifd_tags_cnt d o le EXIF_TAGS hb r1 hr1⟩
      rw [hr1] at h
      obtain ⟨tagsE, xe, xg, c1⟩ := r1
      dsimp only at h hc1
      obtain ⟨r2, hr2, hc2⟩ : ∃ r2, (match gpoff with
          | none => (.ok ([], 0) : PRes (List (String × ExifVal) × Nat))
          | some o => parse_gps_tags d o le) = .ok r2 ∧ r2.2 ≤ 65535 := by
        cases gpoff with
        | none => exact ⟨_, rfl, by decide⟩
        | some o =>
          obtain ⟨r2, hr2⟩ := parse_gps_tags_total d o le
          exact ⟨r2, hr2, parse_gps_tags_cnt d o le hb r2 hr2⟩
      rw [hr2] at h
      obtain ⟨tagsG, c2⟩ := r2
      dsimp only at h hc2
      have hcc : cnt = c0 + c1 + c2 := by
        have h' := PRes.ok.inj h
        exact (Prod.mk.inj h').2.symm
      omega

/-- C10: the full EXIF parse examines at most `3 * 65535` IFD entries on any
byte slice — one IFD0, at most one EXIF sub-IFD and at most one GPS IFD, each
bounded by its 16-bit entry count; no next-IFD chain is ever followed and
pointer tags seen inside a sub-IFD are discarded, so cyclic or
self-referencing IFD offsets cannot cause unbounded parsing. -/
theorem parse_all_exif_bounded_entries (data : List Nat) (tiff_offset : Nat)
    (hb : ∀ b ∈ data, b < 256) :
    parse_visited data tiff_offset ≤ 3 * 65535 := by
  unfold parse_visited
  obtain ⟨r, hr⟩ := parse_all_exif_core_total data tiff_offset
  rw [hr]
  obtain ⟨tags, cnt⟩ := r
  dsimp only
  have hdb : ∀ b ∈ data.drop tiff_offset, b < 256 :=
    fun b hbm => hb b (List.mem_of_mem_drop hbm)
  by_cases hc : tiff_offset + 8 > data.length
  · unfold parse_all_exif_core at hr
    rw [if_pos hc] at hr
    cases hr
    omega
  · unfold parse_all_exif_core at hr
    have hlen : (data.drop tiff_offset).length = data.length - tiff_offset :=
      List.length_drop tiff_offset data
    rw [if_neg hc, idx_ok_of_lt (data.drop tiff_offset) 0 (by omega),
      idx_ok_of_lt (data.drop tiff_offset) 1 (by omega)] at hr
    dsimp only at hr
    split_ifs at hr with h1 h2
    · exact pae_after_bom_cnt (data.drop tiff_offset) true hdb tags cnt hr
    · exact pae_after_bom_cnt (data.drop tiff_offset) false hdb tags cnt hr
    · cases hr; omega

/-- Witness for C10 on a concrete byte slice. -/
theorem parse_all_exif_bounded_entries_witness :
    parse_visited [77, 77, 0, 42, 0, 0, 0, 8, 0, 0] 0 ≤ 3 * 65535 :=
  parse_all_exif_bounded_entries [77, 77, 0, 42, 0, 0, 0, 8, 0, 0] 0 (by decide)

/-!
## Container extractors for PNG and WebP (src/image_loader.rs lines 2710-2798)

Every raw index of the two chunk walkers is covered by the explicit guards of
the source (`pos + 12 <= len` resp. `pos + 8 <= len`, and the payload-end
checks), so the embeddings read bytes with `getD`.  The Rust `while` loops
advance `pos` by at least 8 per iteration, so they run at most
`data.length + 1` times; the embeddings recurse on that much structural fuel,
which therefore never runs out on a reachable iteration.
-/

/-- Chunk walk of `extract_png_exif` (lines 2779-2796): 4-byte big-endian
length, 4-byte type, payload, 4-byte CRC; stop at a chunk of type "eXIf". -/
def extract_png_exif_loop (data : List Nat) : Nat → Nat → Option (List Nat)
  | 0, _ => none
  | fuel + 1, pos =>
    if pos + 12 ≤ data.length then
      if data.getD (pos + 4) 0 = 101 ∧ data.getD (pos + 5) 0 = 88 ∧
          data.getD (pos + 6) 0 = 73 ∧ data.getD (pos + 7) 0 = 102 then
        if pos + 8 + (16777216 * data.getD pos 0 + 65536 * data.getD (pos + 1) 0
            + 256 * data.getD (pos + 2) 0 + data.getD (pos + 3) 0) > data.length then none
        else
          some ((data.drop (pos + 8)).take (16777216 * data.getD pos 0
            + 65536 * data.getD (pos + 1) 0 + 256 * data.getD (pos + 2) 0
            + data.getD (pos + 3) 0))
      else
        extract_png_exif_loop data fuel (pos + 8 + (16777216 * data.getD pos 0
          + 65536 * data.getD (pos + 1) 0 + 256 * data.getD (pos + 2) 0
          + data.getD (pos + 3) 0) + 4)
    else none

/-- `extract_png_exif` (lines 2772-2798): check the PNG signature prefix,
then walk the chunks from offset 8. -/
def extract_png_exif (data : List Nat) : Option (List Nat) :=
  if data.length < 8 then none
  else if ¬(data.getD 0 0 = 137 ∧ data.getD 1 0 = 80 ∧ data.getD 2 0 = 78 ∧
      data.getD 3 0 = 71) then none
  else extract_png_exif_loop data (data.length + 1) 8

/-- Chunk walk of `extract_webp_exif` (lines 2728-2752): RIFF chunks are a
4-byte type, a 4-byte little-endian size and an even-padded payload; on an
"EXIF" chunk a redundant leading "Exif\x00\x00" is stripped. -/
def extract_webp_exif_loop (data : List Nat) : Nat → Nat → Option (List Nat)
  | 0, _ => none
  | fuel + 1, pos =>
    if pos + 8 ≤ data.length then
      if data.getD pos 0 = 69 ∧ data.getD (pos + 1) 0 = 88 ∧
          data.getD (pos + 2) 0 = 73 ∧ data.getD (pos + 3) 0 = 70 then
        if pos + 8 + (data.getD (pos + 4) 0 + 256 * data.getD (pos + 5) 0
            + 65536 * data.getD (pos + 6) 0 + 16777216 * data.getD (pos + 7) 0)
            > data.length then none
        else
          if 6 ≤ ((data.drop (pos + 8)).take (data.getD (pos + 4) 0
              + 256 * data.getD (pos + 5) 0 + 65536 * data.getD (pos + 6) 0
              + 16777216 * data.getD (pos + 7) 0)).length ∧
             ((data.drop (pos + 8)).take (data.getD (pos + 4) 0
              + 256 * data.getD (pos + 5) 0 + 65536 * data.getD (pos + 6) 0
              + 16777216 * data.getD (pos + 7) 0)).take 6 = [69, 120, 105, 102, 0, 0] then
            some (((data.drop (pos + 8)).take (data.getD (pos + 4) 0
              + 256 * data.getD (pos + 5) 0 + 65536 * data.getD (pos + 6) 0
              + 16777216 * data.getD (pos + 7) 0)).drop 6)
          else
            some ((data.drop (pos + 8)).take (data.getD (pos + 4) 0
              + 256 * data.getD (pos + 5) 0 + 65536 * data.getD (pos + 6) 0
              + 16777216 * data.getD (pos + 7) 0))
      else
        extract_webp_exif_loop data fuel (pos + 8 + ((data.getD (pos + 4) 0
          + 256 * data.getD (pos + 5) 0 + 65536 * data.getD (pos + 6) 0
          + 16777216 * data.getD (pos + 7) 0) + 1) / 2 * 2)
    else none

/-- `extract_webp_exif` (lines 2718-2754): check "RIFF" and "WEBP", then walk
the chunk list from offset 12. -/
def extract_webp_exif (data : List Nat) : Option (List Nat) :=
  if data.length < 12 then none
  else if ¬(data.getD 0 0 = 82 ∧ data.getD 1 0 = 73 ∧ data.getD 2 0 = 70 ∧
      data.getD 3 0 = 70 ∧ data.getD 8 0 = 87 ∧ data.getD 9 0 = 69 ∧
      data.getD 10 0 = 66 ∧ data.getD 11 0 = 80) then none
  else extract_webp_exif_loop data (data.length + 1) 12

/-- `read_exif_orientation_png` (lines 2765-2768). -/
def read_exif_orientation_png (data : List Nat) : PRes (Option Nat) :=
  match extract_png_exif data with
  | none => .ok none
  | some e => parse_tiff_orientation e 0

/-- `read_exif_orientation_webp` (lines 2711-2714). -/
def read_exif_orientation_webp (data : List Nat) : PRes (Option Nat) :=
  match extract_webp_exif data with
  | none => .ok none
  | some e => parse_tiff_orientation e 0

/-- The synthetic minimal TIFF of the specification: 8-byte header, 2-byte
entry count, one 12-byte IFD entry for tag 0x0112 of type SHORT holding `v`,
in the requested byte order. -/
def build_tiff (le : Bool) (v : Nat) : List Nat :=
  if le then
    [73, 73, 42, 0, 8, 0, 0, 0, 1, 0, 18, 1, 3, 0, 1, 0, 0, 0, v % 256, v / 256, 0, 0]
  else
    [77, 77, 0, 42, 0, 0, 0, 8, 0, 1, 1, 18, 0, 3, 0, 0, 0, 1, v / 256, v % 256, 0, 0]

/-- A synthetic PNG wrapping `t` in an eXIf chunk: signature, big-endian
length, chunk type, payload, dummy CRC. -/
def png_wrap (t : List Nat) : List Nat :=
  [137, 80, 78, 71, 13, 10, 26, 10] ++
  [t.length / 16777216 % 256, t.length / 65536 % 256, t.length / 256 % 256,
    t.length % 256] ++
  [101, 88, 73, 102] ++ t ++ [0, 0, 0, 0]

/-- A synthetic WebP RIFF container wrapping `t` in an EXIF chunk. -/
def webp_wrap (t : List Nat) : List Nat :=
  [82, 73, 70, 70] ++
  [(4 + 8 + t.length) % 256, (4 + 8 + t.length) / 256 % 256,
    (4 + 8 + t.length) / 65536 % 256, (4 + 8 + t.length) / 16777216 % 256] ++
  [87, 69, 66, 80] ++ [69, 88, 73, 70] ++
  [t.length % 256, t.length / 256 % 256, t.length / 65536 % 256,
    t.length / 16777216 % 256] ++
  t ++ (if t.length % 2 = 1 then [0] else [])

/-- C2: for every orientation value and both byte orders, the synthetic
minimal TIFF yields `some v` when parsed as a raw TIFF at offset 0, and the
identical value when embedded in a synthetic PNG eXIf chunk or a synthetic
WebP RIFF EXIF chunk and parsed through the container extractors and the same
shared walker. -/
theorem exif_container_roundtrip (le : Bool) (v : Nat) (h1 : 1 ≤ v) (h8 : v ≤ 8) :
    parse_tiff_orientation (build_tiff le v) 0 = .ok (some v) ∧
    read_exif_orientation_png (png_wrap (build_tiff le v)) = .ok (some v) ∧
    read_exif_orientation_webp (webp_wrap (build_tiff le v)) = .ok (some v) := by
  interval_cases v <;> cases le <;> exact ⟨by decide, by decide, by decide⟩

/-- Witness for C2 at orientation 6 in little-endian byte order. -/
theorem exif_container_roundtrip_witness :
    (1 ≤ 6 ∧ 6 ≤ 8) ∧
    parse_tiff_orientation (build_tiff true 6) 0 = .ok (some 6) ∧
    read_exif_orientation_png (png_wrap (build_tiff true 6)) = .ok (some 6) ∧
    read_exif_orientation_webp (webp_wrap (build_tiff true 6)) = .ok (some 6) :=
  ⟨⟨by decide, by decide⟩, exif_container_roundtrip true 6 (by decide) (by decide)⟩

/-!
## Decoder frame assembly (C7) and JPEG decode ordering (C5)

The animated decoders drive external codecs through FFI; the embeddings below
capture the post-decode assembly decisions of the source exactly — the
frame-list checks and the `Static`/`Animated` choice — with the decoded
frames as input.  `load_jpeg_model` takes the result of the external
`turbojpeg::decompress` call as an oracle argument and records, in order, the
source's externally visible steps: the codec call (which decodes the full
image into a freshly allocated pixel buffer) and the `validate_dimensions`
call that only happens afterwards (lines 187-204).
-/

/-- Frame-list assembly of `load_webp_animated` (lines 580-592): error on no
frames, downgrade a single frame to `Static`, otherwise `Animated`. -/
def webp_anim_finish (frames : List (RgbaImage × Nat)) (path : String) :
    Res String LoadedImage :=
  match frames with
  | [] => .err ("No frames decoded from animated WebP: " ++ path)
  | [f] => .ok (.static f.1)
  | fs => .ok (.animated fs)

/-- Frame-list assembly of `load_gif` (lines 814-823): same shape as WebP. -/
def gif_finish (frames : List (RgbaImage × Nat)) (path : String) :
    Res String LoadedImage :=
  match frames with
  | [] => .err ("No frames decoded from GIF: " ++ path)
  | [f] => .ok (.static f.1)
  | fs => .ok (.animated fs)

/-- Frame-list assembly of the animated path of `load_jxl` (lines
2281-2296): when the codestream is flagged animated and at least one frame
decoded, the result is `Animated` — with orientation 2-8 applied per frame —
even when exactly one frame decoded; otherwise an error. -/
def jxl_finish (is_animated : Bool) (orientation : Nat)
    (frames : List (RgbaImage × Nat)) (path : String) : Res String LoadedImage :=
  if is_animated ∧ ¬frames.isEmpty then
    .ok (.animated (if 2 ≤ orientation ∧ orientation ≤ 8 then
      frames.map (fun fr => (apply_orientation fr.1 orientation, fr.2))
    else frames))
  else .err ("JXL contains no frames: " ++ path)

/-- C7 counterexample: an animated JXL codestream that decodes to exactly one
frame is returned as a one-frame `Animated` value, not downgraded to
`Static`. -/
theorem jxl_single_frame_animated :
    jxl_finish true 1 [(⟨[0, 0, 0, 0], 1, 1⟩, 100)] "a.jxl" =
      .ok (.animated [(⟨[0, 0, 0, 0], 1, 1⟩, 100)]) := by
  decide

/-- C7 (amended): every `Animated` value assembled by the WebP, GIF and JXL
paths has at least one frame and `first_frame` on it returns without
panicking; the WebP and GIF paths downgrade a single decoded frame to
`Static`; the JXL animated path, however, keeps a single frame as a one-frame
`Animated` value. -/
theorem decoder_frame_assembly (f g : RgbaImage × Nat) (fs : List (RgbaImage × Nat))
    (img : RgbaImage) (p : String) :
    webp_anim_finish [] p = .err ("No frames decoded from animated WebP: " ++ p) ∧
    webp_anim_finish [f] p = .ok (.static f.1) ∧
    webp_anim_finish (f :: g :: fs) p = .ok (.animated (f :: g :: fs)) ∧
    gif_finish [] p = .err ("No frames decoded from GIF: " ++ p) ∧
    gif_finish [f] p = .ok (.static f.1) ∧
    gif_finish (f :: g :: fs) p = .ok (.animated (f :: g :: fs)) ∧
    jxl_finish true 1 [] p = .err ("JXL contains no frames: " ++ p) ∧
    jxl_finish false 1 (f :: fs) p = .err ("JXL contains no frames: " ++ p) ∧
    jxl_finish true 1 (f :: fs) p = .ok (.animated (f :: fs)) ∧
    first_frame (.static img) = .ok img ∧
    first_frame (.animated (f :: fs)) = .ok f.1 := by
  refine ⟨rfl, rfl, rfl, rfl, rfl, rfl, ?_, ?_, ?_, rfl, rfl⟩ <;>
    simp [jxl_finish]

/-- Steps of `load_jpeg` that the ordering claim is about. -/
inductive DecoderStep where
  | turbojpeg_decompress : DecoderStep
  | validate_dims : DecoderStep
deriving DecidableEq, Repr

/-- Segment scan of `read_exif_orientation` (lines 2483-2508): walk JPEG
marker segments from offset 2, return the TIFF walk of an APP1 "Exif\x00\x00"
payload, stop at SOS.  `pos` grows by at least 2 per iteration, so
`data.length + 1` fuel never runs out. -/
def read_exif_orientation_loop (data : List Nat) : Nat → Nat → PRes (Option Nat)
  | 0, _ => .ok none
  | fuel + 1, pos =>
    if pos + 4 < data.length then
      match idx data pos with
      | .crash => .crash
      | .ok b =>
        if b ≠ 255 then .ok none
        else
          match idx data (pos + 1), idx data (pos + 2), idx data (pos + 3) with
          | .ok marker, .ok s1, .ok s2 =>
            if marker = 225 then
              if pos + 4 + 6 > data.length then .ok none
              else if (data.drop (pos + 4)).take 6 = [69, 120, 105, 102, 0, 0] then
                parse_tiff_orientation data (pos + 4 + 6)
              else read_exif_orientation_loop data fuel (pos + 2 + (256 * s1 + s2))
            else if marker = 218 then .ok none
            else read_exif_orientation_loop data fuel (pos + 2 + (256 * s1 + s2))
          | _, _, _ => .crash
    else .ok none

/-- `read_exif_orientation` (lines 2477-2510): SOI check, then the marker
segment scan. -/
def read_exif_orientation (data : List Nat) : PRes (Option Nat) :=
  if data.length < 4 ∨ ¬(data.getD 0 0 = 255 ∧ data.getD 1 0 = 216) then .ok none
  else read_exif_orientation_loop data (data.length + 1) 2

/-- `load_jpeg` (lines 187-204) with the external `turbojpeg::decompress`
call abstracted as an oracle result `(width, height, pixels)`; the step list
records the order of the codec call and the dimension validation. -/
def load_jpeg_model (decompress_result : Option (Nat × Nat × List Nat))
    (file_data : List Nat) : List DecoderStep × PRes (Res String LoadedImage) :=
  match decompress_result with
  | none => ([.turbojpeg_decompress], .ok (.err "Failed to decode JPEG"))
  | some (w, h, px) =>
    match validate_dimensions w h "JPEG" with
    | .err e => ([.turbojpeg_decompress, .validate_dims], .ok (.err e))
    | .ok _ =>
      match from_raw w h px with
      | none => ([.turbojpeg_decompress, .validate_dims],
          .ok (.err "JPEG pixel buffer size mismatch"))
      | some img =>
        match read_exif_orientation file_data with
        | .crash => ([.turbojpeg_decompress, .validate_dims], .crash)
        | .ok o =>
          ([.turbojpeg_decompress, .validate_dims],
            .ok (.ok (.static (match o with
              | some orientation => apply_orientation img orientation
              | none => img))))

/-- C5 at its failing input: for a JPEG whose header declares 20000 x 20000
(400 megapixels, above the 256-megapixel ceiling), `load_jpeg` runs the full
`turbojpeg::decompress` — which allocates and fills the decoded pixel
buffer — strictly before `validate_dimensions` rejects the file, as the step
trace records. -/
theorem load_jpeg_decodes_before_validate (px : List Nat) (jpeg_bytes : List Nat) :
    load_jpeg_model (some (20000, 20000, px)) jpeg_bytes =
      ([.turbojpeg_decompress, .validate_dims],
        .ok (.err ("JPEG image too large: 20000x20000 (400000000 pixels, max 268435456)"))) := by
  have hv : validate_dimensions 20000 20000 "JPEG" =
      .err "JPEG image too large: 20000x20000 (400000000 pixels, max 268435456)" := by
    decide
  unfold load_jpeg_model
  dsimp only
  rw [hv]

/-!
## BMP decoder (src/image_loader.rs lines 831-1018)

`decode_bmp` parses the header manually; every raw index of the pixel and
color-table loops is covered by the explicit truncation and color-table
bounds checks of the source, so byte reads use `getD`.  The per-branch pixel
loops write every output pixel of a zero-initialised buffer exactly once in
row-major order (palette branches leave `[0,0,0,0]` for an out-of-range
index, as the source leaves the zeroed bytes), so the buffer equals the
flattened row-major pixel list the builders below produce.
-/

/-- Little-endian `u16` field read. -/
def le16 (d : List Nat) (off : Nat) : Nat :=
  d.getD off 0 + 256 * d.getD (off + 1) 0

/-- Little-endian `u32` field read. -/
def le32 (d : List Nat) (off : Nat) : Nat :=
  d.getD off 0 + 256 * d.getD (off + 1) 0 + 65536 * d.getD (off + 2) 0
    + 16777216 * d.getD (off + 3) 0

/-- BMP pixel-data offset field (line 846). -/
def bmp_data_offset (d : List Nat) : Nat := le32 d 10

/-- DIB header size field (line 847). -/
def bmp_dib_size (d : List Nat) : Nat := le32 d 14

/-- Signed width field (line 848). -/
def bmp_width_i (d : List Nat) : Int := as_i32 (le32 d 18)

/-- Signed height field (line 849); negative means top-down rows. -/
def bmp_height_i (d : List Nat) : Int := as_i32 (le32 d 22)

/-- Bits-per-pixel field (line 850). -/
def bmp_bpp (d : List Nat) : Nat := le16 d 28

/-- Compression field (lines 851-855), 0 when the header is too short. -/
def bmp_compression (d : List Nat) : Nat :=
  if 34 ≤ d.length then le32 d 30 else 0

/-- `w = width as u32` after the positivity check (line 861). -/
def bmp_w (d : List Nat) : Nat := (bmp_width_i d).toNat

/-- `h = height.unsigned_abs()` (line 861). -/
def bmp_h (d : List Nat) : Nat := (bmp_height_i d).natAbs

/-- Row stride padded to 4-byte boundaries (line 865). -/
def bmp_row_size (d : List Nat) : Nat := (bmp_w d * bmp_bpp d + 31) / 32 * 4

/-- Source row for output row `y` (lines 883-887): bottom-up unless the
height field is negative. -/
def bmp_src_row (d : List Nat) (y : Nat) : Nat :=
  if 0 < bmp_height_i d then bmp_h d - 1 - y else y

/-- 24-bit branch (lines 880-896): BGR triples to RGBA with opaque alpha. -/
def bmp_pixels24 (d : List Nat) : List Nat :=
  (((List.range (bmp_h d)).map fun y =>
    (((List.range (bmp_w d)).map fun x =>
      [d.getD (bmp_data_offset d + bmp_src_row d y * bmp_row_size d + x * 3 + 2) 0,
       d.getD (bmp_data_offset d + bmp_src_row d y * bmp_row_size d + x * 3 + 1) 0,
       d.getD (bmp_data_offset d + bmp_src_row d y * bmp_row_size d + x * 3) 0,
       255])).flatten)).flatten

/-- 32-bit branch (lines 897-913): BGRA to RGBA. -/
def bmp_pixels32 (d : List Nat) : List Nat :=
  (((List.range (bmp_h d)).map fun y =>
    (((List.range (bmp_w d)).map fun x =>
      [d.getD (bmp_data_offset d + bmp_src_row d y * bmp_row_size d + x * 4 + 2) 0,
       d.getD (bmp_data_offset d + bmp_src_row d y * bmp_row_size d + x * 4 + 1) 0,
       d.getD (bmp_data_offset d + bmp_src_row d y * bmp_row_size d + x * 4) 0,
       d.getD (bmp_data_offset d + bmp_src_row d y * bmp_row_size d + x * 4 + 3) 0])).flatten)).flatten

/-- `biClrUsed` resolution (lines 930-940): 0 or a missing field means the
full `1 << bpp` palette. -/
def bmp_clr_used (d : List Nat) : Nat :=
  if 50 ≤ d.length then (if le32 d 46 = 0 then 2 ^ bmp_bpp d else le32 d 46)
  else 2 ^ bmp_bpp d

/-- BGRA color table read (lines 954-959). -/
def bmp_palette (d : List Nat) (clr_used : Nat) : List (List Nat) :=
  (List.range clr_used).map fun i =>
    [d.getD (14 + bmp_dib_size d + i * 4 + 2) 0,
     d.getD (14 + bmp_dib_size d + i * 4 + 1) 0,
     d.getD (14 + bmp_dib_size d + i * 4) 0, 255]

/-- Palette index of pixel `x` in the row starting at `row_start`
(lines 970-1005): whole byte, nibble (high = left), or bit (MSB = left). -/
def bmp_pal_index (d : List Nat) (row_start x : Nat) : Nat :=
  if bmp_bpp d = 8 then d.getD (row_start + x) 0
  else if bmp_bpp d = 4 then
    (if x % 2 = 0 then d.getD (row_start + x / 2) 0 / 16
     else d.getD (row_start + x / 2) 0 % 16)
  else (d.getD (row_start + x / 8) 0 / 2 ^ (7 - x % 8)) % 2

/-- Palette branch pixels (lines 961-1007): an index beyond the palette
leaves the zeroed `[0,0,0,0]` pixel. -/
def bmp_pixels_pal (d : List Nat) (palette : List (List Nat)) : List Nat :=
  (((List.range (bmp_h d)).map fun y =>
    (((List.range (bmp_w d)).map fun x =>
      (if bmp_pal_index d (bmp_data_offset d + bmp_src_row d y * bmp_row_size d) x
          < palette.length
       then palette.getD
         (bmp_pal_index d (bmp_data_offset d + bmp_src_row d y * bmp_row_size d) x)
         [0, 0, 0, 0]
       else [0, 0, 0, 0]))).flatten)).flatten

/-- `decode_bmp` (lines 837-1018). -/
def decode_bmp (data : List Nat) (path_display : String) : Res String LoadedImage :=
  if data.length < 54 then .err "File too small to be BMP"
  else if ¬(data.getD 0 0 = 66 ∧ data.getD 1 0 = 77) then .err "Not a BMP file"
  else if bmp_width_i data ≤ 0 ∨ bmp_height_i data = 0 then .err "Invalid BMP dimensions"
  else
    match validate_dimensions (bmp_w data) (bmp_h data) "BMP" with
    | .err e => .err e
    | .ok _ =>
      if data.length < bmp_data_offset data + bmp_row_size data * bmp_h data then
        .err "BMP file truncated"
      else if ¬(bmp_w data * bmp_h data < USIZE_BOUND ∧
          bmp_w data * bmp_h data * 4 < USIZE_BOUND) then
        .err "BMP dimensions overflow"
      else if bmp_bpp data = 24 then
        match from_raw (bmp_w data) (bmp_h data) (bmp_pixels24 data) with
        | none => .err "BMP pixel buffer size mismatch"
        | some img => .ok (.static img)
      else if bmp_bpp data = 32 then
        match from_raw (bmp_w data) (bmp_h data) (bmp_pixels32 data) with
        | none => .err "BMP pixel buffer size mismatch"
        | some img => .ok (.static img)
      else if bmp_bpp data = 1 ∨ bmp_bpp data = 4 ∨ bmp_bpp data = 8 then
        if bmp_compression data = 1 then
          .err ("Unsupported BMP compression: BI_RLE8 in " ++ path_display)
        else if bmp_compression data = 2 then
          .err ("Unsupported BMP compression: BI_RLE4 in " ++ path_display)
        else if bmp_clr_used data > 2 ^ bmp_bpp data then
          .err ("Invalid BMP color table: biClrUsed " ++ toString (bmp_clr_used data)
            ++ " exceeds max " ++ toString (2 ^ bmp_bpp data) ++ " for "
            ++ toString (bmp_bpp data) ++ "-bit")
        else if 14 + bmp_dib_size data + bmp_clr_used data * 4 > data.length then
          .err "BMP color table truncated"
        else
          match from_raw (bmp_w data) (bmp_h data)
              (bmp_pixels_pal data (bmp_palette data (bmp_clr_used data))) with
          | none => .err "BMP pixel buffer size mismatch"
          | some img => .ok (.static img)
      else .err ("Unknown BMP bit depth: " ++ toString (bmp_bpp data))

/-- The synthetic 2x2 24-bit bottom-up BMP of the specification: file row 0
holds the bottom image row, pixels as BGR triples, rows padded to 8 bytes. -/
def c9_bmp : List Nat :=
  [66, 77, 70, 0, 0, 0, 0, 0, 0, 0, 54, 0, 0, 0,
   40, 0, 0, 0, 2, 0, 0, 0, 2, 0, 0, 0, 1, 0, 24, 0, 0, 0, 0, 0,
   16, 0, 0, 0, 0, 0, 0, 0, 0, 0, 0, 0, 0, 0, 0, 0, 0, 0, 0, 0] ++
  [255, 0, 0, 255, 255, 255, 0, 0,
   0, 0, 255, 0, 255, 0, 0, 0]

/-- C9: the synthetic 2x2 24-bit bottom-up BMP decodes to a Static buffer in
which each pixel is the source BGR triple with rows flipped (file row 0
becomes the bottom image row) and channels reordered to RGB with alpha 255:
top row red, green; bottom row blue, white. -/
theorem bmp_24bit_bottom_up_decode :
    decode_bmp c9_bmp "test" =
      .ok (.static ⟨[255, 0, 0, 255, 0, 255, 0, 255,
        0, 0, 255, 255, 255, 255, 255, 255], 2, 2⟩) := by
  decide

/-- The same BMP with the compression field set to 1 (BI_RLE8). -/
def c8_bmp24_rle : List Nat :=
  [66, 77, 70, 0, 0, 0, 0, 0, 0, 0, 54, 0, 0, 0,
   40, 0, 0, 0, 2, 0, 0, 0, 2, 0, 0, 0, 1, 0, 24, 0, 1, 0, 0, 0,
   16, 0, 0, 0, 0, 0, 0, 0, 0, 0, 0, 0, 0, 0, 0, 0, 0, 0, 0, 0] ++
  [255, 0, 0, 255, 255, 255, 0, 0,
   0, 0, 255, 0, 255, 0, 0, 0]

/-- C8 counterexample: a 24-bit BMP whose compression field is BI_RLE8 (1)
is not rejected — `decode_bmp` decodes it as if it were uncompressed, because
the RLE check only runs in the palette (1/4/8-bit) branch. -/
theorem bmp_rle8_24bit_decodes :
    decode_bmp c8_bmp24_rle "test" =
      .ok (.static ⟨[255, 0, 0, 255, 0, 255, 0, 255,
        0, 0, 255, 255, 255, 255, 255, 255], 2, 2⟩) := by
  decide

/-- C8 (amended): for every BMP whose header passes the magic, dimension,
validation and truncation checks and declares a palette bit depth (1, 4 or
8), a compression field of 1 (BI_RLE8) or 2 (BI_RLE4) makes `decode_bmp`
fail with an error naming the compression type; for the 24- and 32-bit
branches the compression field is not inspected. -/
theorem bmp_palette_rle_rejected (data : List Nat) (p : String)
    (h54 : ¬data.length < 54)
    (hbm : data.getD 0 0 = 66 ∧ data.getD 1 0 = 77)
    (hdim : ¬(bmp_width_i data ≤ 0 ∨ bmp_height_i data = 0))
    (hval : validate_dimensions (bmp_w data) (bmp_h data) "BMP" = .ok ())
    (htrunc : ¬data.length < bmp_data_offset data + bmp_row_size data * bmp_h data)
    (hovf : bmp_w data * bmp_h data < USIZE_BOUND ∧
      bmp_w data * bmp_h data * 4 < USIZE_BOUND)
    (hbpp : bmp_bpp data = 1 ∨ bmp_bpp data = 4 ∨ bmp_bpp data = 8)
    (hc : bmp_compression data = 1 ∨ bmp_compression data = 2) :
    decode_bmp data p = .err ("Unsupported BMP compression: " ++
      (if bmp_compression data = 1 then "BI_RLE8" else "BI_RLE4") ++ " in " ++ p) := by
  unfold decode_bmp
  rw [if_neg h54, if_neg (not_not_intro hbm), if_neg hdim, hval]
  rw [if_neg htrunc, if_neg (not_not_intro hovf),
    if_neg (by rcases hbpp with h | h | h <;> omega : ¬bmp_bpp data = 24),
    if_neg (by rcases hbpp with h | h | h <;> omega : ¬bmp_bpp data = 32),
    if_pos hbpp]
  rcases hc with h1 | h2
  · rw [if_pos h1, if_pos h1]
    dsimp only
    rfl
  · rw [if_neg (by omega : ¬bmp_compression data = 1), if_pos h2,
      if_neg (by omega : ¬bmp_compression data = 1)]
    dsimp only
    rfl

/-- A synthetic 2x1 8-bit BMP with a two-entry palette and compression
BI_RLE8. -/
def c8_rle8_bmp : List Nat :=
  [66, 77, 66, 0, 0, 0, 0, 0, 0, 0, 62, 0, 0, 0,
   40, 0, 0, 0, 2, 0, 0, 0, 1, 0, 0, 0, 1, 0, 8, 0, 1, 0, 0, 0,
   4, 0, 0, 0, 0, 0, 0, 0, 0, 0, 0, 0, 2, 0, 0, 0, 0, 0, 0, 0] ++
  [0, 0, 0, 0, 0, 0, 0, 0] ++ [0, 0, 0, 0]

/-- Witness for C8 (amended) on the synthetic RLE8-flagged 8-bit BMP. -/
theorem bmp_palette_rle_rejected_witness :
    (¬c8_rle8_bmp.length < 54) ∧
    (c8_rle8_bmp.getD 0 0 = 66 ∧ c8_rle8_bmp.getD 1 0 = 77) ∧
    (¬(bmp_width_i c8_rle8_bmp ≤ 0 ∨ bmp_height_i c8_rle8_bmp = 0)) ∧
    validate_dimensions (bmp_w c8_rle8_bmp) (bmp_h c8_rle8_bmp) "BMP" = .ok () ∧
    (¬c8_rle8_bmp.length <
      bmp_data_offset c8_rle8_bmp + bmp_row_size c8_rle8_bmp * bmp_h c8_rle8_bmp) ∧
    (bmp_w c8_rle8_bmp * bmp_h c8_rle8_bmp < USIZE_BOUND ∧
      bmp_w c8_rle8_bmp * bmp_h c8_rle8_bmp * 4 < USIZE_BOUND) ∧
    (bmp_bpp c8_rle8_bmp = 1 ∨ bmp_bpp c8_rle8_bmp = 4 ∨ bmp_bpp c8_rle8_bmp = 8) ∧
    (bmp_compression c8_rle8_bmp = 1 ∨ bmp_compression c8_rle8_bmp = 2) ∧
    decode_bmp c8_rle8_bmp "test.bmp" = .err ("Unsupported BMP compression: " ++
      (if bmp_compression c8_rle8_bmp = 1 then "BI_RLE8" else "BI_RLE4")
      ++ " in " ++ "test.bmp") :=
  ⟨by decide, by decide, by decide, by decide, by decide, by decide, by decide, by decide,
    bmp_palette_rle_rejected c8_rle8_bmp "test.bmp" (by decide) (by decide) (by decide)
      (by decide) (by decide) (by decide) (by decide) (by decide)⟩
